import Mathlib

/-!
Verification development for the GPU pre-aggregation header `cuda_gpupreagg.h`
of pg-strom.  The definitions below shallowly embed the data model and the
atomic-combine library of that header: a `Datum` is a 64-bit machine word
modelled as a `Nat` reduced modulo `2^64` where it matters, accumulator slots
pair a datum with a datum-class tag, and the floating-point kinds are modelled
at the IEEE-754 bit-pattern level (binary32 / binary64) so that the
type-punned comparisons (`__int_as_float`, `__longlong_as_double`) of the
source are captured exactly.  Atomic read-modify-write operations
(`atomicMin`, `atomicAdd`, the compare-and-swap retry loops) are embedded by
their sequential semantics, i.e. their effect in the absence of concurrent
writers, which is the scope of the claims that mention them.
-/

/-- Low 32 bits of a datum (`& 0xffffffff`). -/
def low32 (n : Nat) : Nat := n % 0x100000000

/-- Low 64 bits of a datum (conversion to `cl_ulong`). -/
def low64 (n : Nat) : Nat := n % 0x10000000000000000

/-- Read a 32-bit slice as a signed `cl_int` (two's complement). -/
def toInt32 (n : Nat) : Int :=
  if n % 0x100000000 < 0x80000000 then (n % 0x100000000 : Int)
  else (n % 0x100000000 : Int) - 0x100000000

/-- Store a signed value through a `cl_int` lvalue: two's complement, 32 bits. -/
def ofInt32 (i : Int) : Nat := (i % 0x100000000).toNat

/-- Read a 64-bit datum as a signed `cl_long` (two's complement). -/
def toInt64 (n : Nat) : Int :=
  if n % 0x10000000000000000 < 0x8000000000000000 then (n % 0x10000000000000000 : Int)
  else (n % 0x10000000000000000 : Int) - 0x10000000000000000

/-- Store a signed value through a `cl_long` lvalue (or convert to `Datum`):
two's complement, 64 bits. -/
def ofInt64 (i : Int) : Nat := (i % 0x10000000000000000).toNat

/-- Write the low 4 bytes of a 64-bit datum (a store through a `cl_int *` /
`cl_uint *` / `cl_float *` lvalue on a little-endian device), keeping the
high 4 bytes. -/
def setLow32 (d w : Nat) : Nat := d - d % 0x100000000 + w % 0x100000000

/-- Datum class tags.  The combine library of `cuda_gpupreagg.h` only ever
compares a class tag against `DATUM_CLASS__NORMAL` and
`DATUM_CLASS__NULL`; `EXTRA` stands for every other tag (the
has-extra-bytes / varlena classes declared outside this header). -/
inductive DatumClass where
  | NORMAL
  | NULL
  | EXTRA
deriving DecidableEq

/-- One accumulator slot: the `(cl_char *p_accum_dclass, Datum *p_accum_datum)`
pair every `aggcalc_*` function operates on. -/
structure Accum where
  dclass : DatumClass
  datum : Nat
deriving DecidableEq

/-! ## IEEE-754 binary32 bit-pattern model (`cl_float` via `__int_as_float`) -/

/-- Exponent field of a binary32 pattern. -/
def expf32 (b : Nat) : Nat := b / 0x800000 % 0x100

/-- Mantissa field of a binary32 pattern. -/
def mant32 (b : Nat) : Nat := b % 0x800000

/-- Sign bit of a binary32 pattern. -/
def sgn32 (b : Nat) : Nat := b / 0x80000000 % 2

/-- Magnitude of a finite binary32 pattern, in units of `2^(-149)` (exact). -/
def mag32 (b : Nat) : Nat :=
  if expf32 b = 0 then mant32 b else (0x800000 + mant32 b) * 2 ^ (expf32 b - 1)

/-- Signed value of a finite binary32 pattern, in units of `2^(-149)`. -/
def sval32 (b : Nat) : Int :=
  if sgn32 b = 1 then -(mag32 b : Int) else (mag32 b : Int)

/-- NaN test for a binary32 pattern. -/
def isNan32 (b : Nat) : Bool := expf32 b == 255 && mant32 b != 0

/-- Infinity test for a binary32 pattern. -/
def isInf32 (b : Nat) : Bool := expf32 b == 255 && mant32 b == 0

/-- Order key of a binary32 pattern: exact scaled value for finite patterns,
`±2^279` for the infinities (beyond every finite magnitude, which is below
`2^277`).  Two non-NaN patterns compare under IEEE `<` exactly as their keys
compare over `Int` (both zeroes map to `0`). -/
def fval32 (b : Nat) : Int :=
  if expf32 b = 255 then (if sgn32 b = 1 then -(2 ^ 279) else 2 ^ 279) else sval32 b

/-- IEEE `<` on binary32 patterns (`false` whenever either side is NaN),
as produced by the C expression `__int_as_float(a) < __int_as_float(b)`. -/
def fltLt32 (a b : Nat) : Bool :=
  !isNan32 a && !isNan32 b && decide (fval32 a < fval32 b)

/-- The canonical quiet NaN pattern produced for invalid binary32 results. -/
def canonNaN32 : Nat := 0x7fc00000

/-- Round a nonzero exact magnitude (units `2^(-149)`) to a representable
binary32 significand, IEEE round-to-nearest, ties to even.  Magnitudes below
`2^24` are exactly representable (subnormals and the lowest binades). -/
def roundSig32 (M : Nat) : Nat :=
  if M < 2 ^ 24 then M
  else if 2 * (M % 2 ^ (Nat.log 2 M - 23)) < 2 ^ (Nat.log 2 M - 23) then
    M - M % 2 ^ (Nat.log 2 M - 23)
  else if 2 ^ (Nat.log 2 M - 23) < 2 * (M % 2 ^ (Nat.log 2 M - 23)) then
    M - M % 2 ^ (Nat.log 2 M - 23) + 2 ^ (Nat.log 2 M - 23)
  else if (M / 2 ^ (Nat.log 2 M - 23)) % 2 = 0 then
    M - M % 2 ^ (Nat.log 2 M - 23)
  else M - M % 2 ^ (Nat.log 2 M - 23) + 2 ^ (Nat.log 2 M - 23)

/-- Encode a sign and a representable magnitude (units `2^(-149)`) as a
binary32 pattern; magnitudes beyond the largest finite one overflow to the
signed infinity. -/
def encodeMag32 (s M : Nat) : Nat :=
  if M = 0 then s * 0x80000000
  else if (2 ^ 24 - 1) * 2 ^ 253 < M then s * 0x80000000 + 255 * 0x800000
  else if M < 0x800000 then s * 0x80000000 + M
  else s * 0x80000000 + (Nat.log 2 M - 23 + 1) * 0x800000
       + (M / 2 ^ (Nat.log 2 M - 23) - 0x800000)

/-- IEEE-754 binary32 addition on bit patterns (round to nearest, ties to
even), the semantics of `+` on `cl_float` used by the `add_float` combines. -/
def faddBits32 (x y : Nat) : Nat :=
  if isNan32 x || isNan32 y then canonNaN32
  else if isInf32 x && isInf32 y then (if sgn32 x = sgn32 y then x else canonNaN32)
  else if isInf32 x then x
  else if isInf32 y then y
  else
    let S : Int := sval32 x + sval32 y
    if S = 0 then (if sgn32 x = 1 && sgn32 y = 1 then 0x80000000 else 0)
    else encodeMag32 (if S < 0 then 1 else 0) (roundSig32 S.natAbs)

/-! ## IEEE-754 binary64 bit-pattern model (`cl_double` via `__longlong_as_double`) -/

/-- Exponent field of a binary64 pattern. -/
def expf64 (b : Nat) : Nat := b / 0x10000000000000 % 0x800

/-- Mantissa field of a binary64 pattern. -/
def mant64 (b : Nat) : Nat := b % 0x10000000000000

/-- Sign bit of a binary64 pattern. -/
def sgn64 (b : Nat) : Nat := b / 0x8000000000000000 % 2

/-- Magnitude of a finite binary64 pattern, in units of `2^(-1074)` (exact). -/
def mag64 (b : Nat) : Nat :=
  if expf64 b = 0 then mant64 b else (0x10000000000000 + mant64 b) * 2 ^ (expf64 b - 1)

/-- Signed value of a finite binary64 pattern, in units of `2^(-1074)`. -/
def sval64 (b : Nat) : Int :=
  if sgn64 b = 1 then -(mag64 b : Int) else (mag64 b : Int)

/-- NaN test for a binary64 pattern. -/
def isNan64 (b : Nat) : Bool := expf64 b == 2047 && mant64 b != 0

/-- Infinity test for a binary64 pattern. -/
def isInf64 (b : Nat) : Bool := expf64 b == 2047 && mant64 b == 0

/-- Order key of a binary64 pattern: exact scaled value for finite patterns,
`±2^2200` for the infinities (beyond every finite magnitude, which is below
`2^2098`). -/
def fval64 (b : Nat) : Int :=
  if expf64 b = 2047 then (if sgn64 b = 1 then -(2 ^ 2200) else 2 ^ 2200) else sval64 b

/-- IEEE `<` on binary64 patterns (`false` whenever either side is NaN). -/
def fltLt64 (a b : Nat) : Bool :=
  !isNan64 a && !isNan64 b && decide (fval64 a < fval64 b)

/-- The canonical quiet NaN pattern produced for invalid binary64 results. -/
def canonNaN64 : Nat := 0x7ff8000000000000

/-- Round a nonzero exact magnitude (units `2^(-1074)`) to a representable
binary64 significand, IEEE round-to-nearest, ties to even. -/
def roundSig64 (M : Nat) : Nat :=
  if M < 2 ^ 53 then M
  else if 2 * (M % 2 ^ (Nat.log 2 M - 52)) < 2 ^ (Nat.log 2 M - 52) then
    M - M % 2 ^ (Nat.log 2 M - 52)
  else if 2 ^ (Nat.log 2 M - 52) < 2 * (M % 2 ^ (Nat.log 2 M - 52)) then
    M - M % 2 ^ (Nat.log 2 M - 52) + 2 ^ (Nat.log 2 M - 52)
  else if (M / 2 ^ (Nat.log 2 M - 52)) % 2 = 0 then
    M - M % 2 ^ (Nat.log 2 M - 52)
  else M - M % 2 ^ (Nat.log 2 M - 52) + 2 ^ (Nat.log 2 M - 52)

/-- Encode a sign and a representable magnitude (units `2^(-1074)`) as a
binary64 pattern; magnitudes beyond the largest finite one overflow to the
signed infinity. -/
def encodeMag64 (s M : Nat) : Nat :=
  if M = 0 then s * 0x8000000000000000
  else if (2 ^ 53 - 1) * 2 ^ 2045 < M then s * 0x8000000000000000 + 2047 * 0x10000000000000
  else if M < 0x10000000000000 then s * 0x8000000000000000 + M
  else s * 0x8000000000000000 + (Nat.log 2 M - 52 + 1) * 0x10000000000000
       + (M / 2 ^ (Nat.log 2 M - 52) - 0x10000000000000)

/-- IEEE-754 binary64 addition on bit patterns (round to nearest, ties to
even), the semantics of `+` on `cl_double` used by the `add_double` combines. -/
def faddBits64 (x y : Nat) : Nat :=
  if isNan64 x || isNan64 y then canonNaN64
  else if isInf64 x && isInf64 y then (if sgn64 x = sgn64 y then x else canonNaN64)
  else if isInf64 x then x
  else if isInf64 y then y
  else
    let S : Int := sval64 x + sval64 y
    if S = 0 then (if sgn64 x = 1 && sgn64 y = 1 then 0x8000000000000000 else 0)
    else encodeMag64 (if S < 0 then 1 else 0) (roundSig64 S.natAbs)

/-! ## `AGGCALC_INIT_TEMPLATE` instances

Each `aggcalc_init_NAME` writes `DATUM_CLASS__NULL` and the template's
`INIT_VALUE` into the accumulator slot.  Integer `INIT_VALUE`s are converted
to the 64-bit unsigned `Datum` (so the negative ones sign-extend),
`__float_as_int` produces a signed `cl_int` from the float's bit pattern
(so `-FLT_MAX` also sign-extends when widened to `Datum`), and
`__double_as_longlong` reproduces the double's 64-bit pattern. -/

def aggcalc_init_null : Accum := ⟨DatumClass.NULL, 0⟩

/-- `(Datum)INT_MAX`. -/
def aggcalc_init_min_int : Accum := ⟨DatumClass.NULL, ofInt64 0x7fffffff⟩

/-- `(Datum)INT_MIN` (sign-extends to 64 bits). -/
def aggcalc_init_max_int : Accum := ⟨DatumClass.NULL, ofInt64 (-0x80000000)⟩

def aggcalc_init_add_int : Accum := ⟨DatumClass.NULL, 0⟩

/-- `(Datum)LONG_MAX`. -/
def aggcalc_init_min_long : Accum := ⟨DatumClass.NULL, ofInt64 0x7fffffffffffffff⟩

/-- `(Datum)LONG_MIN`. -/
def aggcalc_init_max_long : Accum := ⟨DatumClass.NULL, ofInt64 (-0x8000000000000000)⟩

def aggcalc_init_add_long : Accum := ⟨DatumClass.NULL, 0⟩

/-- `__float_as_int(FLT_MAX)`: the pattern `0x7f7fffff` as a `cl_int`,
widened to `Datum`. -/
def aggcalc_init_min_float : Accum := ⟨DatumClass.NULL, ofInt64 (toInt32 0x7f7fffff)⟩

/-- `__float_as_int(-FLT_MAX)`: the pattern `0xff7fffff` as a (negative)
`cl_int`, widened to `Datum` with sign extension. -/
def aggcalc_init_max_float : Accum := ⟨DatumClass.NULL, ofInt64 (toInt32 0xff7fffff)⟩

/-- `__float_as_int(0.0)`. -/
def aggcalc_init_add_float : Accum := ⟨DatumClass.NULL, ofInt64 (toInt32 0x00000000)⟩

/-- `__double_as_longlong(DBL_MAX)`. -/
def aggcalc_init_min_double : Accum := ⟨DatumClass.NULL, ofInt64 (toInt64 0x7fefffffffffffff)⟩

/-- `__double_as_longlong(-DBL_MAX)`. -/
def aggcalc_init_max_double : Accum := ⟨DatumClass.NULL, ofInt64 (toInt64 0xffefffffffffffff)⟩

/-- `__double_as_longlong(0.0)`. -/
def aggcalc_init_add_double : Accum := ⟨DatumClass.NULL, 0⟩

/-! ## Normal (non-atomic) combine operations

Each function mirrors the shape of the `aggcalc_normal_*` functions: when the
contributed class is `DATUM_CLASS__NORMAL`, fold the contributed datum into
the accumulator slot and set the accumulator class to `NORMAL`; otherwise the
slot is left untouched and `assert(newval_dclass == DATUM_CLASS__NULL)` is
evaluated.  The returned `Bool` records whether that assertion holds (the
branch taken when the class is `NORMAL` contains no assertion, hence `true`).
`Min(x, y)` is `((x) < (y) ? (x) : (y))` and `Max(x, y)` is
`((x) > (y) ? (x) : (y))`; on floats the conditional yields the bit pattern of
the selected operand, so those are embedded as pattern selections driven by
`fltLt32` / `fltLt64`. -/

def aggcalc_normal_min_int (a : Accum) (newval_dclass : DatumClass) (newval_datum : Nat) :
    Accum × Bool :=
  if newval_dclass = DatumClass.NORMAL then
    (⟨DatumClass.NORMAL,
      setLow32 a.datum (ofInt32 (min (toInt32 a.datum) (toInt32 newval_datum)))⟩, true)
  else (a, decide (newval_dclass = DatumClass.NULL))

def aggcalc_normal_max_int (a : Accum) (newval_dclass : DatumClass) (newval_datum : Nat) :
    Accum × Bool :=
  if newval_dclass = DatumClass.NORMAL then
    (⟨DatumClass.NORMAL,
      setLow32 a.datum (ofInt32 (max (toInt32 a.datum) (toInt32 newval_datum)))⟩, true)
  else (a, decide (newval_dclass = DatumClass.NULL))

def aggcalc_normal_add_int (a : Accum) (newval_dclass : DatumClass) (newval_datum : Nat) :
    Accum × Bool :=
  if newval_dclass = DatumClass.NORMAL then
    (⟨DatumClass.NORMAL,
      setLow32 a.datum (ofInt32 (toInt32 a.datum + toInt32 newval_datum))⟩, true)
  else (a, decide (newval_dclass = DatumClass.NULL))

def aggcalc_normal_min_long (a : Accum) (newval_dclass : DatumClass) (newval_datum : Nat) :
    Accum × Bool :=
  if newval_dclass = DatumClass.NORMAL then
    (⟨DatumClass.NORMAL, ofInt64 (min (toInt64 a.datum) (toInt64 newval_datum))⟩, true)
  else (a, decide (newval_dclass = DatumClass.NULL))

def aggcalc_normal_max_long (a : Accum) (newval_dclass : DatumClass) (newval_datum : Nat) :
    Accum × Bool :=
  if newval_dclass = DatumClass.NORMAL then
    (⟨DatumClass.NORMAL, ofInt64 (max (toInt64 a.datum) (toInt64 newval_datum))⟩, true)
  else (a, decide (newval_dclass = DatumClass.NULL))

def aggcalc_normal_add_long (a : Accum) (newval_dclass : DatumClass) (newval_datum : Nat) :
    Accum × Bool :=
  if newval_dclass = DatumClass.NORMAL then
    (⟨DatumClass.NORMAL, ofInt64 (toInt64 a.datum + toInt64 newval_datum)⟩, true)
  else (a, decide (newval_dclass = DatumClass.NULL))

def aggcalc_normal_min_float (a : Accum) (newval_dclass : DatumClass) (newval_datum : Nat) :
    Accum × Bool :=
  if newval_dclass = DatumClass.NORMAL then
    (⟨DatumClass.NORMAL,
      setLow32 a.datum
        (if fltLt32 (low32 a.datum) (low32 newval_datum)
         then low32 a.datum else low32 newval_datum)⟩, true)
  else (a, decide (newval_dclass = DatumClass.NULL))

def aggcalc_normal_max_float (a : Accum) (newval_dclass : DatumClass) (newval_datum : Nat) :
    Accum × Bool :=
  if newval_dclass = DatumClass.NORMAL then
    (⟨DatumClass.NORMAL,
      setLow32 a.datum
        (if fltLt32 (low32 newval_datum) (low32 a.datum)
         then low32 a.datum else low32 newval_datum)⟩, true)
  else (a, decide (newval_dclass = DatumClass.NULL))

def aggcalc_normal_add_float (a : Accum) (newval_dclass : DatumClass) (newval_datum : Nat) :
    Accum × Bool :=
  if newval_dclass = DatumClass.NORMAL then
    (⟨DatumClass.NORMAL,
      setLow32 a.datum (faddBits32 (low32 a.datum) (low32 newval_datum))⟩, true)
  else (a, decide (newval_dclass = DatumClass.NULL))

def aggcalc_normal_min_double (a : Accum) (newval_dclass : DatumClass) (newval_datum : Nat) :
    Accum × Bool :=
  if newval_dclass = DatumClass.NORMAL then
    (⟨DatumClass.NORMAL,
      if fltLt64 (low64 a.datum) (low64 newval_datum)
      then low64 a.datum else low64 newval_datum⟩, true)
  else (a, decide (newval_dclass = DatumClass.NULL))

def aggcalc_normal_max_double (a : Accum) (newval_dclass : DatumClass) (newval_datum : Nat) :
    Accum × Bool :=
  if newval_dclass = DatumClass.NORMAL then
    (⟨DatumClass.NORMAL,
      if fltLt64 (low64 newval_datum) (low64 a.datum)
      then low64 a.datum else low64 newval_datum⟩, true)
  else (a, decide (newval_dclass = DatumClass.NULL))

def aggcalc_normal_add_double (a : Accum) (newval_dclass : DatumClass) (newval_datum : Nat) :
    Accum × Bool :=
  if newval_dclass = DatumClass.NORMAL then
    (⟨DatumClass.NORMAL, faddBits64 (low64 a.datum) (low64 newval_datum)⟩, true)
  else (a, decide (newval_dclass = DatumClass.NULL))

/-! ## Atomic merge combine operations (sequential semantics)

`aggcalc_merge_*` use `atomicMin` / `atomicMax` / `atomicAdd`, or a
compare-and-swap retry loop for floating min/max.  In the absence of
concurrent writers an atomic read-modify-write is the plain read-modify-write,
and the CAS loop reads the current pattern, stops without storing when the
current float already wins the comparison, and otherwise installs the new
pattern (the single CAS succeeds).  The assertion bookkeeping is as in the
normal operations. -/

def aggcalc_merge_min_int (a : Accum) (newval_dclass : DatumClass) (newval_datum : Nat) :
    Accum × Bool :=
  if newval_dclass = DatumClass.NORMAL then
    (⟨DatumClass.NORMAL,
      setLow32 a.datum (ofInt32 (min (toInt32 a.datum) (toInt32 newval_datum)))⟩, true)
  else (a, decide (newval_dclass = DatumClass.NULL))

def aggcalc_merge_max_int (a : Accum) (newval_dclass : DatumClass) (newval_datum : Nat) :
    Accum × Bool :=
  if newval_dclass = DatumClass.NORMAL then
    (⟨DatumClass.NORMAL,
      setLow32 a.datum (ofInt32 (max (toInt32 a.datum) (toInt32 newval_datum)))⟩, true)
  else (a, decide (newval_dclass = DatumClass.NULL))

def aggcalc_merge_add_int (a : Accum) (newval_dclass : DatumClass) (newval_datum : Nat) :
    Accum × Bool :=
  if newval_dclass = DatumClass.NORMAL then
    (⟨DatumClass.NORMAL,
      setLow32 a.datum (ofInt32 (toInt32 a.datum + toInt32 newval_datum))⟩, true)
  else (a, decide (newval_dclass = DatumClass.NULL))

def aggcalc_merge_min_long (a : Accum) (newval_dclass : DatumClass) (newval_datum : Nat) :
    Accum × Bool :=
  if newval_dclass = DatumClass.NORMAL then
    (⟨DatumClass.NORMAL, ofInt64 (min (toInt64 a.datum) (toInt64 newval_datum))⟩, true)
  else (a, decide (newval_dclass = DatumClass.NULL))

def aggcalc_merge_max_long (a : Accum) (newval_dclass : DatumClass) (newval_datum : Nat) :
    Accum × Bool :=
  if newval_dclass = DatumClass.NORMAL then
    (⟨DatumClass.NORMAL, ofInt64 (max (toInt64 a.datum) (toInt64 newval_datum))⟩, true)
  else (a, decide (newval_dclass = DatumClass.NULL))

/-- `atomicAdd((cl_ulong *)p, (cl_ulong)newval_datum)`: unsigned 64-bit
addition, wrapping modulo `2^64`. -/
def aggcalc_merge_add_long (a : Accum) (newval_dclass : DatumClass) (newval_datum : Nat) :
    Accum × Bool :=
  if newval_dclass = DatumClass.NORMAL then
    (⟨DatumClass.NORMAL, (low64 a.datum + low64 newval_datum) % 0x10000000000000000⟩, true)
  else (a, decide (newval_dclass = DatumClass.NULL))

def aggcalc_merge_min_float (a : Accum) (newval_dclass : DatumClass) (newval_datum : Nat) :
    Accum × Bool :=
  if newval_dclass = DatumClass.NORMAL then
    (⟨DatumClass.NORMAL,
      setLow32 a.datum
        (if fltLt32 (low32 a.datum) (low32 newval_datum)
         then low32 a.datum else low32 newval_datum)⟩, true)
  else (a, decide (newval_dclass = DatumClass.NULL))

def aggcalc_merge_max_float (a : Accum) (newval_dclass : DatumClass) (newval_datum : Nat) :
    Accum × Bool :=
  if newval_dclass = DatumClass.NORMAL then
    (⟨DatumClass.NORMAL,
      setLow32 a.datum
        (if fltLt32 (low32 newval_datum) (low32 a.datum)
         then low32 a.datum else low32 newval_datum)⟩, true)
  else (a, decide (newval_dclass = DatumClass.NULL))

def aggcalc_merge_add_float (a : Accum) (newval_dclass : DatumClass) (newval_datum : Nat) :
    Accum × Bool :=
  if newval_dclass = DatumClass.NORMAL then
    (⟨DatumClass.NORMAL,
      setLow32 a.datum (faddBits32 (low32 a.datum) (low32 newval_datum))⟩, true)
  else (a, decide (newval_dclass = DatumClass.NULL))

def aggcalc_merge_min_double (a : Accum) (newval_dclass : DatumClass) (newval_datum : Nat) :
    Accum × Bool :=
  if newval_dclass = DatumClass.NORMAL then
    (⟨DatumClass.NORMAL,
      if fltLt64 (low64 a.datum) (low64 newval_datum)
      then low64 a.datum else low64 newval_datum⟩, true)
  else (a, decide (newval_dclass = DatumClass.NULL))

def aggcalc_merge_max_double (a : Accum) (newval_dclass : DatumClass) (newval_datum : Nat) :
    Accum × Bool :=
  if newval_dclass = DatumClass.NORMAL then
    (⟨DatumClass.NORMAL,
      if fltLt64 (low64 newval_datum) (low64 a.datum)
      then low64 a.datum else low64 newval_datum⟩, true)
  else (a, decide (newval_dclass = DatumClass.NULL))

def aggcalc_merge_add_double (a : Accum) (newval_dclass : DatumClass) (newval_datum : Nat) :
    Accum × Bool :=
  if newval_dclass = DatumClass.NORMAL then
    (⟨DatumClass.NORMAL, faddBits64 (low64 a.datum) (low64 newval_datum)⟩, true)
  else (a, decide (newval_dclass = DatumClass.NULL))

/-! ## Atomic update operations

`aggcalc_update_*` are `#define` aliases of the corresponding
`aggcalc_merge_*` functions. -/

def aggcalc_update_min_int := aggcalc_merge_min_int
def aggcalc_update_max_int := aggcalc_merge_max_int
def aggcalc_update_add_int := aggcalc_merge_add_int
def aggcalc_update_min_long := aggcalc_merge_min_long
def aggcalc_update_max_long := aggcalc_merge_max_long
def aggcalc_update_add_long := aggcalc_merge_add_long
def aggcalc_update_min_float := aggcalc_merge_min_float
def aggcalc_update_max_float := aggcalc_merge_max_float
def aggcalc_update_add_float := aggcalc_merge_add_float
def aggcalc_update_min_double := aggcalc_merge_min_double
def aggcalc_update_max_double := aggcalc_merge_max_double
def aggcalc_update_add_double := aggcalc_merge_add_double

/-! ## Kernel control block, suspend contexts and the global hash table -/

/-- Modelled from the spec: `kern_errorbuf`, the shared error-status
structure ("kind + originating location"), is declared outside this header
(`cuda_common.h` is not part of the sources here).  Only its existence and
its all-zeroes state (`memset(&kgpreagg->kerror, 0, sizeof(kern_errorbuf))`)
are needed. -/
structure KernErrorbuf where
  errcode : Nat
  kernel_id : Nat
  lineno : Nat
deriving DecidableEq

/-- The all-zeroes `kern_errorbuf`, the result of the `memset` in
`gpupreagg_reset_kernel_task`. -/
def KernErrorbuf.zero : KernErrorbuf := ⟨0, 0, 0⟩

/-- Modelled from the spec: `kern_parambuf`, the kernel parameter buffer, is
declared outside this header; the macros here only read its `length` field,
the rest of its contents is kept opaque as `body`. -/
structure KernParambuf where
  length : Nat
  body : List Nat
deriving DecidableEq

/-- `struct kern_gpupreagg`: the per-launch control block (the fields in
declaration order; `cl_uint`/`cl_ulong` become `Nat`, `cl_bool` becomes
`Bool`). -/
structure KernGpupreagg where
  kerror : KernErrorbuf
  num_group_keys : Nat
  read_slot_pos : Nat
  grid_sz : Nat
  block_sz : Nat
  setup_slot_done : Bool
  final_buffer_modified : Bool
  resume_context : Bool
  suspend_count : Nat
  suspend_size : Nat
  nitems_real : Nat
  nitems_filtered : Nat
  num_groups : Nat
  extra_usage : Nat
  tv_stat_debug1 : Nat
  tv_stat_debug2 : Nat
  tv_stat_debug3 : Nat
  tv_stat_debug4 : Nat
  kparams : KernParambuf
deriving DecidableEq

/-- `gpupreagg_reset_kernel_task`: reset the `kern_gpupreagg` status prior to
a resume. -/
def gpupreagg_reset_kernel_task (kg : KernGpupreagg) (resume : Bool) : KernGpupreagg :=
  { kg with
    kerror := KernErrorbuf.zero
    read_slot_pos := 0
    setup_slot_done := false
    final_buffer_modified := false
    resume_context := resume
    suspend_count := 0 }

/-- `KERN_GPUPREAGG_PARAMBUF_LENGTH`. -/
def KERN_GPUPREAGG_PARAMBUF_LENGTH (kg : KernGpupreagg) : Nat := kg.kparams.length

/-- `KERN_GPUPREAGG_LENGTH`: `offsetof(kern_gpupreagg, kparams)` plus the
parameter buffer length.  The `offsetof` value depends on field layouts
declared outside this header, so it is passed in as `kparamsOff`. -/
def KERN_GPUPREAGG_LENGTH (kparamsOff : Nat) (kg : KernGpupreagg) : Nat :=
  kparamsOff + KERN_GPUPREAGG_PARAMBUF_LENGTH kg

/-- `sizeof(gpupreaggSuspendContext)`: a union of `{size_t}`, 
`{cl_uint, cl_uint}` and `{size_t}`, hence 8 bytes. -/
def sizeofGpupreaggSuspendContext : Nat := 8

/-- `KERN_GPUPREAGG_SUSPEND_CONTEXT(kgpreagg, group_id)`: `NULL` (here `none`)
when `suspend_size` is zero, otherwise the byte offset, relative to the
`kern_gpupreagg` base, of entry `group_id` of the `gpupreaggSuspendContext`
array that starts right after the parameter buffer. -/
def KERN_GPUPREAGG_SUSPEND_CONTEXT (kparamsOff : Nat) (kg : KernGpupreagg)
    (group_id : Nat) : Option Nat :=
  if kg.suspend_size > 0 then
    some (kparamsOff + KERN_GPUPREAGG_PARAMBUF_LENGTH kg
          + sizeofGpupreaggSuspendContext * group_id)
  else none

/-- `sizeof(preagg_hash_item)`: three `cl_uint` fields (`index`, `hash`,
`next`), hence 12 bytes. -/
def sizeofPreaggHashItem : Nat := 12

/-- `GLOBAL_HASHSLOT_GETITEM(f_hash, index)`: the byte offset, relative to the
`kern_global_hashslot` base, of hash item `index`, carved from the tail of
the backing buffer of byte length `length`. -/
def GLOBAL_HASHSLOT_GETITEM (length : Nat) (index : Nat) : Int :=
  (length : Int) - (sizeofPreaggHashItem : Int) * ((index : Int) + 1)

/-! ## Helper forms used by the claim statements -/

/-- Run a combine operation over a list of `(class, datum)` contributions,
starting from accumulator state `a`. -/
def foldCombine (step : Accum → DatumClass → Nat → Accum × Bool) (a : Accum)
    (l : List (DatumClass × Nat)) : Accum :=
  l.foldl (fun acc p => (step acc p.1 p.2).1) a

/-- The NULL-state discipline of one combine operation `step` started from
`a0`: after any contribution list `l` the accumulator class is `NULL` exactly
when every contribution was `NULL`, it is `NORMAL` exactly otherwise, and a
`NORMAL` accumulator class never reverts under any further contribution. -/
def nullStateIff (step : Accum → DatumClass → Nat → Accum × Bool) (a0 : Accum)
    (l : List (DatumClass × Nat)) : Prop :=
  ((foldCombine step a0 l).dclass = DatumClass.NULL ↔
     ∀ p ∈ l, p.1 = DatumClass.NULL) ∧
  ((foldCombine step a0 l).dclass = DatumClass.NORMAL ↔
     ¬ ∀ p ∈ l, p.1 = DatumClass.NULL) ∧
  (∀ a c v, a.dclass = DatumClass.NORMAL →
     ((step a c v).1).dclass = DatumClass.NORMAL)

/-- The identity property of the `init` values (claim C1): starting from the
kind's `aggcalc_init_*` state, one `NORMAL` contribution of datum `v` through
the kind's normal combine leaves exactly the contributed value in the slot —
unconditionally for the six integer kinds; for floating min (max) whenever
`v` is not the `+∞` (`-∞`) pattern, which would lose against the finite
`FLT_MAX`/`DBL_MAX` init value; and for the floating sums, as a floating
value whenever `v` is not NaN (`0.0 + (-0.0)` renormalizes the zero sign). -/
def initIdentity (v : Nat) : Prop :=
  low32 ((aggcalc_normal_min_int aggcalc_init_min_int DatumClass.NORMAL v).1.datum)
    = low32 v ∧
  low32 ((aggcalc_normal_max_int aggcalc_init_max_int DatumClass.NORMAL v).1.datum)
    = low32 v ∧
  low32 ((aggcalc_normal_add_int aggcalc_init_add_int DatumClass.NORMAL v).1.datum)
    = low32 v ∧
  (aggcalc_normal_min_long aggcalc_init_min_long DatumClass.NORMAL v).1.datum
    = low64 v ∧
  (aggcalc_normal_max_long aggcalc_init_max_long DatumClass.NORMAL v).1.datum
    = low64 v ∧
  (aggcalc_normal_add_long aggcalc_init_add_long DatumClass.NORMAL v).1.datum
    = low64 v ∧
  (low32 v ≠ 0x7f800000 →
    low32 ((aggcalc_normal_min_float aggcalc_init_min_float
        DatumClass.NORMAL v).1.datum) = low32 v) ∧
  (low32 v ≠ 0xff800000 →
    low32 ((aggcalc_normal_max_float aggcalc_init_max_float
        DatumClass.NORMAL v).1.datum) = low32 v) ∧
  (isNan32 (low32 v) = false →
    fval32 (low32 ((aggcalc_normal_add_float aggcalc_init_add_float
        DatumClass.NORMAL v).1.datum)) = fval32 (low32 v)) ∧
  (low64 v ≠ 0x7ff0000000000000 →
    (aggcalc_normal_min_double aggcalc_init_min_double
        DatumClass.NORMAL v).1.datum = low64 v) ∧
  (low64 v ≠ 0xfff0000000000000 →
    (aggcalc_normal_max_double aggcalc_init_max_double
        DatumClass.NORMAL v).1.datum = low64 v) ∧
  (isNan64 (low64 v) = false →
    fval64 ((aggcalc_normal_add_double aggcalc_init_add_double
        DatumClass.NORMAL v).1.datum) = fval64 (low64 v))

/-- The NULL short-circuit (claim C2): a contribution whose class tag is
`DATUM_CLASS__NULL` leaves the whole accumulator slot (class tag and raw
datum) untouched, for every combine operation of the library. -/
def nullLeavesUnchanged (a : Accum) (v : Nat) : Prop :=
  (aggcalc_normal_min_int a DatumClass.NULL v).1 = a ∧
  (aggcalc_normal_max_int a DatumClass.NULL v).1 = a ∧
  (aggcalc_normal_add_int a DatumClass.NULL v).1 = a ∧
  (aggcalc_normal_min_long a DatumClass.NULL v).1 = a ∧
  (aggcalc_normal_max_long a DatumClass.NULL v).1 = a ∧
  (aggcalc_normal_add_long a DatumClass.NULL v).1 = a ∧
  (aggcalc_normal_min_float a DatumClass.NULL v).1 = a ∧
  (aggcalc_normal_max_float a DatumClass.NULL v).1 = a ∧
  (aggcalc_normal_add_float a DatumClass.NULL v).1 = a ∧
  (aggcalc_normal_min_double a DatumClass.NULL v).1 = a ∧
  (aggcalc_normal_max_double a DatumClass.NULL v).1 = a ∧
  (aggcalc_normal_add_double a DatumClass.NULL v).1 = a ∧
  (aggcalc_merge_min_int a DatumClass.NULL v).1 = a ∧
  (aggcalc_merge_max_int a DatumClass.NULL v).1 = a ∧
  (aggcalc_merge_add_int a DatumClass.NULL v).1 = a ∧
  (aggcalc_merge_min_long a DatumClass.NULL v).1 = a ∧
  (aggcalc_merge_max_long a DatumClass.NULL v).1 = a ∧
  (aggcalc_merge_add_long a DatumClass.NULL v).1 = a ∧
  (aggcalc_merge_min_float a DatumClass.NULL v).1 = a ∧
  (aggcalc_merge_max_float a DatumClass.NULL v).1 = a ∧
  (aggcalc_merge_add_float a DatumClass.NULL v).1 = a ∧
  (aggcalc_merge_min_double a DatumClass.NULL v).1 = a ∧
  (aggcalc_merge_max_double a DatumClass.NULL v).1 = a ∧
  (aggcalc_merge_add_double a DatumClass.NULL v).1 = a ∧
  (aggcalc_update_min_int a DatumClass.NULL v).1 = a ∧
  (aggcalc_update_max_int a DatumClass.NULL v).1 = a ∧
  (aggcalc_update_add_int a DatumClass.NULL v).1 = a ∧
  (aggcalc_update_min_long a DatumClass.NULL v).1 = a ∧
  (aggcalc_update_max_long a DatumClass.NULL v).1 = a ∧
  (aggcalc_update_add_long a DatumClass.NULL v).1 = a ∧
  (aggcalc_update_min_float a DatumClass.NULL v).1 = a ∧
  (aggcalc_update_max_float a DatumClass.NULL v).1 = a ∧
  (aggcalc_update_add_float a DatumClass.NULL v).1 = a ∧
  (aggcalc_update_min_double a DatumClass.NULL v).1 = a ∧
  (aggcalc_update_max_double a DatumClass.NULL v).1 = a ∧
  (aggcalc_update_add_double a DatumClass.NULL v).1 = a

/-- Claim C5, binary32 part: one uncontended `aggcalc_merge_min_float` /
`aggcalc_merge_max_float` call with a `NORMAL` contribution leaves the slot
holding the floating minimum / maximum of the previous and the contributed
float values. -/
def mergeMinMaxFloat (a : Accum) (v : Nat) : Prop :=
  fval32 (low32 ((aggcalc_merge_min_float a DatumClass.NORMAL v).1.datum))
    = min (fval32 (low32 a.datum)) (fval32 (low32 v)) ∧
  fval32 (low32 ((aggcalc_merge_max_float a DatumClass.NORMAL v).1.datum))
    = max (fval32 (low32 a.datum)) (fval32 (low32 v))

/-- Claim C5, binary64 part: one uncontended `aggcalc_merge_min_double` /
`aggcalc_merge_max_double` call with a `NORMAL` contribution leaves the slot
holding the floating minimum / maximum of the previous and the contributed
double values. -/
def mergeMinMaxDouble (a : Accum) (v : Nat) : Prop :=
  fval64 ((aggcalc_merge_min_double a DatumClass.NORMAL v).1.datum)
    = min (fval64 (low64 a.datum)) (fval64 (low64 v)) ∧
  fval64 ((aggcalc_merge_max_double a DatumClass.NORMAL v).1.datum)
    = max (fval64 (low64 a.datum)) (fval64 (low64 v))

/-- Claim C10: the assertion recorded by every combine operation holds on a
call with contribution class `c` and datum `v` against accumulator `a`. -/
def combineAssertsOk (a : Accum) (c : DatumClass) (v : Nat) : Prop :=
  (aggcalc_normal_min_int a c v).2 = true ∧
  (aggcalc_normal_max_int a c v).2 = true ∧
  (aggcalc_normal_add_int a c v).2 = true ∧
  (aggcalc_normal_min_long a c v).2 = true ∧
  (aggcalc_normal_max_long a c v).2 = true ∧
  (aggcalc_normal_add_long a c v).2 = true ∧
  (aggcalc_normal_min_float a c v).2 = true ∧
  (aggcalc_normal_max_float a c v).2 = true ∧
  (aggcalc_normal_add_float a c v).2 = true ∧
  (aggcalc_normal_min_double a c v).2 = true ∧
  (aggcalc_normal_max_double a c v).2 = true ∧
  (aggcalc_normal_add_double a c v).2 = true ∧
  (aggcalc_merge_min_int a c v).2 = true ∧
  (aggcalc_merge_max_int a c v).2 = true ∧
  (aggcalc_merge_add_int a c v).2 = true ∧
  (aggcalc_merge_min_long a c v).2 = true ∧
  (aggcalc_merge_max_long a c v).2 = true ∧
  (aggcalc_merge_add_long a c v).2 = true ∧
  (aggcalc_merge_min_float a c v).2 = true ∧
  (aggcalc_merge_max_float a c v).2 = true ∧
  (aggcalc_merge_add_float a c v).2 = true ∧
  (aggcalc_merge_min_double a c v).2 = true ∧
  (aggcalc_merge_max_double a c v).2 = true ∧
  (aggcalc_merge_add_double a c v).2 = true ∧
  (aggcalc_update_min_int a c v).2 = true ∧
  (aggcalc_update_max_int a c v).2 = true ∧
  (aggcalc_update_add_int a c v).2 = true ∧
  (aggcalc_update_min_long a c v).2 = true ∧
  (aggcalc_update_max_long a c v).2 = true ∧
  (aggcalc_update_add_long a c v).2 = true ∧
  (aggcalc_update_min_float a c v).2 = true ∧
  (aggcalc_update_max_float a c v).2 = true ∧
  (aggcalc_update_add_float a c v).2 = true ∧
  (aggcalc_update_min_double a c v).2 = true ∧
  (aggcalc_update_max_double a c v).2 = true ∧
  (aggcalc_update_add_double a c v).2 = true

/-- Claim C10: the assertion recorded by every combine operation is violated
on a call with contribution class `c` and datum `v` against accumulator `a`. -/
def combineAssertsFail (a : Accum) (c : DatumClass) (v : Nat) : Prop :=
  (aggcalc_normal_min_int a c v).2 = false ∧
  (aggcalc_normal_max_int a c v).2 = false ∧
  (aggcalc_normal_add_int a c v).2 = false ∧
  (aggcalc_normal_min_long a c v).2 = false ∧
  (aggcalc_normal_max_long a c v).2 = false ∧
  (aggcalc_normal_add_long a c v).2 = false ∧
  (aggcalc_normal_min_float a c v).2 = false ∧
  (aggcalc_normal_max_float a c v).2 = false ∧
  (aggcalc_normal_add_float a c v).2 = false ∧
  (aggcalc_normal_min_double a c v).2 = false ∧
  (aggcalc_normal_max_double a c v).2 = false ∧
  (aggcalc_normal_add_double a c v).2 = false ∧
  (aggcalc_merge_min_int a c v).2 = false ∧
  (aggcalc_merge_max_int a c v).2 = false ∧
  (aggcalc_merge_add_int a c v).2 = false ∧
  (aggcalc_merge_min_long a c v).2 = false ∧
  (aggcalc_merge_max_long a c v).2 = false ∧
  (aggcalc_merge_add_long a c v).2 = false ∧
  (aggcalc_merge_min_float a c v).2 = false ∧
  (aggcalc_merge_max_float a c v).2 = false ∧
  (aggcalc_merge_add_float a c v).2 = false ∧
  (aggcalc_merge_min_double a c v).2 = false ∧
  (aggcalc_merge_max_double a c v).2 = false ∧
  (aggcalc_merge_add_double a c v).2 = false ∧
  (aggcalc_update_min_int a c v).2 = false ∧
  (aggcalc_update_max_int a c v).2 = false ∧
  (aggcalc_update_add_int a c v).2 = false ∧
  (aggcalc_update_min_long a c v).2 = false ∧
  (aggcalc_update_max_long a c v).2 = false ∧
  (aggcalc_update_add_long a c v).2 = false ∧
  (aggcalc_update_min_float a c v).2 = false ∧
  (aggcalc_update_max_float a c v).2 = false ∧
  (aggcalc_update_add_float a c v).2 = false ∧
  (aggcalc_update_min_double a c v).2 = false ∧
  (aggcalc_update_max_double a c v).2 = false ∧
  (aggcalc_update_add_double a c v).2 = false

/-- A concrete control-block state with `suspend_size = 0` (no suspend buffer
allocated), used to exercise the accessor macros. -/
def sampleKgIdle : KernGpupreagg :=
  ⟨⟨1, 2, 3⟩, 4, 5, 6, 7, true, true, true, 8, 0, 9, 10, 11, 12, 13, 14, 15, 16, ⟨64, [1, 2]⟩⟩

/-- A concrete control-block state with a positive `suspend_size`, used to
exercise the accessor macros. -/
def sampleKgSuspended : KernGpupreagg :=
  ⟨⟨1, 2, 3⟩, 4, 5, 6, 7, true, true, true, 8, 48, 9, 10, 11, 12, 13, 14, 15, 16, ⟨64, [1, 2]⟩⟩

/-! ## Shared arithmetic lemmas -/

lemma toInt32_le (v : Nat) : toInt32 v ≤ 2147483647 := by
  unfold toInt32; split <;> omega

lemma neg_le_toInt32 (v : Nat) : -2147483648 ≤ toInt32 v := by
  unfold toInt32; split <;> omega

lemma ofInt32_toInt32 (v : Nat) : ofInt32 (toInt32 v) = v % 0x100000000 := by
  unfold ofInt32 toInt32; split <;> omega

lemma ofInt32_add_eq (x y : Nat) :
    ofInt32 (toInt32 x + toInt32 y) = (x + y) % 0x100000000 := by
  unfold ofInt32 toInt32; split <;> split <;> omega

lemma toInt64_le (v : Nat) : toInt64 v ≤ 9223372036854775807 := by
  unfold toInt64; split <;> omega

lemma neg_le_toInt64 (v : Nat) : -9223372036854775808 ≤ toInt64 v := by
  unfold toInt64; split <;> omega

lemma ofInt64_toInt64 (v : Nat) : ofInt64 (toInt64 v) = v % 0x10000000000000000 := by
  unfold ofInt64 toInt64; split <;> omega

lemma ofInt64_add_eq (x y : Nat) :
    ofInt64 (toInt64 x + toInt64 y) = (x + y) % 0x10000000000000000 := by
  unfold ofInt64 toInt64; split <;> split <;> omega

lemma low32_setLow32 (d w : Nat) : low32 (setLow32 d w) = low32 w := by
  unfold low32 setLow32; omega

lemma low32_low32 (w : Nat) : low32 (low32 w) = low32 w := by
  unfold low32; omega

lemma low64_low64 (w : Nat) : low64 (low64 w) = low64 w := by
  unfold low64; omega

/-! ## Generic facts about the shared shape of the combine operations -/

lemma foldCombine_skip (step : Accum → DatumClass → Nat → Accum × Bool)
    (hskip : ∀ a c v, c ≠ DatumClass.NORMAL → (step a c v).1 = a) :
    ∀ (l : List (DatumClass × Nat)) (a : Accum),
      (∀ p ∈ l, p.1 ≠ DatumClass.NORMAL) → foldCombine step a l = a := by
  intro l
  induction l with
  | nil => intro a _; rfl
  | cons p rest ih =>
    intro a h
    have hhead : foldCombine step a (p :: rest)
        = foldCombine step ((step a p.1 p.2).1) rest := rfl
    rw [hhead, hskip a p.1 p.2 (h p (by simp))]
    exact ih a fun q hq => h q (by simp [hq])

lemma foldCombine_keepNormal (step : Accum → DatumClass → Nat → Accum × Bool)
    (hN : ∀ a v, ((step a DatumClass.NORMAL v).1).dclass = DatumClass.NORMAL)
    (hskip : ∀ a c v, c ≠ DatumClass.NORMAL → (step a c v).1 = a) :
    ∀ (l : List (DatumClass × Nat)) (a : Accum),
      a.dclass = DatumClass.NORMAL →
      (foldCombine step a l).dclass = DatumClass.NORMAL := by
  intro l
  induction l with
  | nil => intro a h; exact h
  | cons p rest ih =>
    intro a h
    have hhead : foldCombine step a (p :: rest)
        = foldCombine step ((step a p.1 p.2).1) rest := rfl
    rw [hhead]
    apply ih
    by_cases hc : p.1 = DatumClass.NORMAL
    · rw [hc]; exact hN a p.2
    · rw [hskip a p.1 p.2 hc]; exact h

lemma foldCombine_hitNormal (step : Accum → DatumClass → Nat → Accum × Bool)
    (hN : ∀ a v, ((step a DatumClass.NORMAL v).1).dclass = DatumClass.NORMAL)
    (hskip : ∀ a c v, c ≠ DatumClass.NORMAL → (step a c v).1 = a) :
    ∀ (l : List (DatumClass × Nat)) (a : Accum),
      (∃ p ∈ l, p.1 = DatumClass.NORMAL) →
      (foldCombine step a l).dclass = DatumClass.NORMAL := by
  intro l
  induction l with
  | nil => rintro a ⟨p, hp, _⟩; cases hp
  | cons p rest ih =>
    rintro a ⟨q, hq, hqN⟩
    have hhead : foldCombine step a (p :: rest)
        = foldCombine step ((step a p.1 p.2).1) rest := rfl
    rw [hhead]
    rcases List.mem_cons.mp hq with rfl | hq2
    · exact foldCombine_keepNormal step hN hskip rest _ (by rw [hqN]; exact hN a q.2)
    · exact ih _ ⟨q, hq2, hqN⟩

lemma step_keepNormal (step : Accum → DatumClass → Nat → Accum × Bool)
    (hN : ∀ a v, ((step a DatumClass.NORMAL v).1).dclass = DatumClass.NORMAL)
    (hskip : ∀ a c v, c ≠ DatumClass.NORMAL → (step a c v).1 = a) :
    ∀ a c v, a.dclass = DatumClass.NORMAL →
      ((step a c v).1).dclass = DatumClass.NORMAL := by
  intro a c v ha
  by_cases hc : c = DatumClass.NORMAL
  · rw [hc]; exact hN a v
  · rw [hskip a c v hc]; exact ha

lemma nullStateIff_of_shape (step : Accum → DatumClass → Nat → Accum × Bool)
    (hN : ∀ a v, ((step a DatumClass.NORMAL v).1).dclass = DatumClass.NORMAL)
    (hskip : ∀ a c v, c ≠ DatumClass.NORMAL → (step a c v).1 = a)
    (a0 : Accum) (h0 : a0.dclass = DatumClass.NULL)
    (l : List (DatumClass × Nat))
    (hvalid : ∀ p ∈ l, p.1 = DatumClass.NORMAL ∨ p.1 = DatumClass.NULL) :
    nullStateIff step a0 l := by
  by_cases hall : ∀ p ∈ l, p.1 = DatumClass.NULL
  · have hid : foldCombine step a0 l = a0 :=
      foldCombine_skip step hskip l a0 fun p hp => by rw [hall p hp]; decide
    refine ⟨?_, ?_, step_keepNormal step hN hskip⟩
    · rw [hid, h0]; exact iff_of_true rfl hall
    · rw [hid, h0]; exact iff_of_false (by decide) (not_not_intro hall)
  · push_neg at hall
    obtain ⟨p, hp, hpne⟩ := hall
    have hpN : p.1 = DatumClass.NORMAL := (hvalid p hp).resolve_right hpne
    have hnorm := foldCombine_hitNormal step hN hskip l a0 ⟨p, hp, hpN⟩
    refine ⟨?_, ?_, step_keepNormal step hN hskip⟩
    · rw [hnorm]
      exact iff_of_false (by decide) fun hall2 => hpne (hall2 p hp)
    · rw [hnorm]
      exact iff_of_true rfl fun hall2 => hpne (hall2 p hp)

/-- Claim C2: for every accumulate kind and every combine operation (normal
update, atomic merge, atomic update), a contribution whose class tag is
`DATUM_CLASS__NULL` leaves both the accumulator class tag and the raw datum
exactly as they were. -/
theorem C2_null_input_leaves_accumulator_unchanged (a : Accum) (v : Nat) :
    nullLeavesUnchanged a v :=
  ⟨rfl, rfl, rfl, rfl, rfl, rfl, rfl, rfl, rfl, rfl, rfl, rfl, rfl, rfl, rfl, rfl, rfl, rfl, rfl, rfl, rfl, rfl, rfl, rfl, rfl, rfl, rfl, rfl, rfl, rfl, rfl, rfl, rfl, rfl, rfl, rfl⟩

/-- Claim C3: for every accumulate kind, an accumulator produced by the kind's
`aggcalc_init_*` and fed any finite sequence of `NORMAL`/`NULL` contributions
through the kind's normal combine is in the `NULL` class exactly when every
contribution so far was `NULL`; it is `NORMAL` exactly otherwise (so the first
non-NULL contribution flips it), and a `NORMAL` class never reverts under any
later contribution. -/
theorem C3_null_state_flips_exactly_once (l : List (DatumClass × Nat))
    (hvalid : ∀ p ∈ l, p.1 = DatumClass.NORMAL ∨ p.1 = DatumClass.NULL) :
    nullStateIff aggcalc_normal_min_int aggcalc_init_min_int l ∧
    nullStateIff aggcalc_normal_max_int aggcalc_init_max_int l ∧
    nullStateIff aggcalc_normal_add_int aggcalc_init_add_int l ∧
    nullStateIff aggcalc_normal_min_long aggcalc_init_min_long l ∧
    nullStateIff aggcalc_normal_max_long aggcalc_init_max_long l ∧
    nullStateIff aggcalc_normal_add_long aggcalc_init_add_long l ∧
    nullStateIff aggcalc_normal_min_float aggcalc_init_min_float l ∧
    nullStateIff aggcalc_normal_max_float aggcalc_init_max_float l ∧
    nullStateIff aggcalc_normal_add_float aggcalc_init_add_float l ∧
    nullStateIff aggcalc_normal_min_double aggcalc_init_min_double l ∧
    nullStateIff aggcalc_normal_max_double aggcalc_init_max_double l ∧
    nullStateIff aggcalc_normal_add_double aggcalc_init_add_double l :=
  ⟨nullStateIff_of_shape _ (fun _ _ => rfl)
      (fun a c v hc => by simp [aggcalc_normal_min_int, hc]) _ rfl l hvalid,
   nullStateIff_of_shape _ (fun _ _ => rfl)
      (fun a c v hc => by simp [aggcalc_normal_max_int, hc]) _ rfl l hvalid,
   nullStateIff_of_shape _ (fun _ _ => rfl)
      (fun a c v hc => by simp [aggcalc_normal_add_int, hc]) _ rfl l hvalid,
   nullStateIff_of_shape _ (fun _ _ => rfl)
      (fun a c v hc => by simp [aggcalc_normal_min_long, hc]) _ rfl l hvalid,
   nullStateIff_of_shape _ (fun _ _ => rfl)
      (fun a c v hc => by simp [aggcalc_normal_max_long, hc]) _ rfl l hvalid,
   nullStateIff_of_shape _ (fun _ _ => rfl)
      (fun a c v hc => by simp [aggcalc_normal_add_long, hc]) _ rfl l hvalid,
   nullStateIff_of_shape _ (fun _ _ => rfl)
      (fun a c v hc => by simp [aggcalc_normal_min_float, hc]) _ rfl l hvalid,
   nullStateIff_of_shape _ (fun _ _ => rfl)
      (fun a c v hc => by simp [aggcalc_normal_max_float, hc]) _ rfl l hvalid,
   nullStateIff_of_shape _ (fun _ _ => rfl)
      (fun a c v hc => by simp [aggcalc_normal_add_float, hc]) _ rfl l hvalid,
   nullStateIff_of_shape _ (fun _ _ => rfl)
      (fun a c v hc => by simp [aggcalc_normal_min_double, hc]) _ rfl l hvalid,
   nullStateIff_of_shape _ (fun _ _ => rfl)
      (fun a c v hc => by simp [aggcalc_normal_max_double, hc]) _ rfl l hvalid,
   nullStateIff_of_shape _ (fun _ _ => rfl)
      (fun a c v hc => by simp [aggcalc_normal_add_double, hc]) _ rfl l hvalid⟩

/-- Witness for C3 at a concrete contribution list. -/
theorem C3_null_state_flips_exactly_once_witness :
    (∀ p ∈ ([(DatumClass.NULL, 7), (DatumClass.NORMAL, 5), (DatumClass.NULL, 2)] : List (DatumClass × Nat)),
      p.1 = DatumClass.NORMAL ∨ p.1 = DatumClass.NULL) ∧
    (nullStateIff aggcalc_normal_min_int aggcalc_init_min_int [(DatumClass.NULL, 7), (DatumClass.NORMAL, 5), (DatumClass.NULL, 2)] ∧
    nullStateIff aggcalc_normal_max_int aggcalc_init_max_int [(DatumClass.NULL, 7), (DatumClass.NORMAL, 5), (DatumClass.NULL, 2)] ∧
    nullStateIff aggcalc_normal_add_int aggcalc_init_add_int [(DatumClass.NULL, 7), (DatumClass.NORMAL, 5), (DatumClass.NULL, 2)] ∧
    nullStateIff aggcalc_normal_min_long aggcalc_init_min_long [(DatumClass.NULL, 7), (DatumClass.NORMAL, 5), (DatumClass.NULL, 2)] ∧
    nullStateIff aggcalc_normal_max_long aggcalc_init_max_long [(DatumClass.NULL, 7), (DatumClass.NORMAL, 5), (DatumClass.NULL, 2)] ∧
    nullStateIff aggcalc_normal_add_long aggcalc_init_add_long [(DatumClass.NULL, 7), (DatumClass.NORMAL, 5), (DatumClass.NULL, 2)] ∧
    nullStateIff aggcalc_normal_min_float aggcalc_init_min_float [(DatumClass.NULL, 7), (DatumClass.NORMAL, 5), (DatumClass.NULL, 2)] ∧
    nullStateIff aggcalc_normal_max_float aggcalc_init_max_float [(DatumClass.NULL, 7), (DatumClass.NORMAL, 5), (DatumClass.NULL, 2)] ∧
    nullStateIff aggcalc_normal_add_float aggcalc_init_add_float [(DatumClass.NULL, 7), (DatumClass.NORMAL, 5), (DatumClass.NULL, 2)] ∧
    nullStateIff aggcalc_normal_min_double aggcalc_init_min_double [(DatumClass.NULL, 7), (DatumClass.NORMAL, 5), (DatumClass.NULL, 2)] ∧
    nullStateIff aggcalc_normal_max_double aggcalc_init_max_double [(DatumClass.NULL, 7), (DatumClass.NORMAL, 5), (DatumClass.NULL, 2)] ∧
    nullStateIff aggcalc_normal_add_double aggcalc_init_add_double [(DatumClass.NULL, 7), (DatumClass.NORMAL, 5), (DatumClass.NULL, 2)]) :=
  ⟨by decide, C3_null_state_flips_exactly_once [(DatumClass.NULL, 7), (DatumClass.NORMAL, 5), (DatumClass.NULL, 2)] (by decide)⟩

/-- Claim C7: `gpupreagg_reset_kernel_task` zeroes the error buffer, resets
`read_slot_pos`, `setup_slot_done`, `final_buffer_modified` and
`suspend_count`, installs the given `resume_context` flag, and leaves every
other field of the control block (in particular `suspend_size`,
`nitems_real`, `nitems_filtered`, `num_groups`, `extra_usage` and the
parameter buffer) unchanged. -/
theorem C7_reset_kernel_task_frame (kg : KernGpupreagg) (flag : Bool) :
    (gpupreagg_reset_kernel_task kg flag).kerror = KernErrorbuf.zero ∧
    (gpupreagg_reset_kernel_task kg flag).read_slot_pos = 0 ∧
    (gpupreagg_reset_kernel_task kg flag).setup_slot_done = false ∧
    (gpupreagg_reset_kernel_task kg flag).final_buffer_modified = false ∧
    (gpupreagg_reset_kernel_task kg flag).resume_context = flag ∧
    (gpupreagg_reset_kernel_task kg flag).suspend_count = 0 ∧
    (gpupreagg_reset_kernel_task kg flag).suspend_size = kg.suspend_size ∧
    (gpupreagg_reset_kernel_task kg flag).num_group_keys = kg.num_group_keys ∧
    (gpupreagg_reset_kernel_task kg flag).grid_sz = kg.grid_sz ∧
    (gpupreagg_reset_kernel_task kg flag).block_sz = kg.block_sz ∧
    (gpupreagg_reset_kernel_task kg flag).nitems_real = kg.nitems_real ∧
    (gpupreagg_reset_kernel_task kg flag).nitems_filtered = kg.nitems_filtered ∧
    (gpupreagg_reset_kernel_task kg flag).num_groups = kg.num_groups ∧
    (gpupreagg_reset_kernel_task kg flag).extra_usage = kg.extra_usage ∧
    (gpupreagg_reset_kernel_task kg flag).tv_stat_debug1 = kg.tv_stat_debug1 ∧
    (gpupreagg_reset_kernel_task kg flag).tv_stat_debug2 = kg.tv_stat_debug2 ∧
    (gpupreagg_reset_kernel_task kg flag).tv_stat_debug3 = kg.tv_stat_debug3 ∧
    (gpupreagg_reset_kernel_task kg flag).tv_stat_debug4 = kg.tv_stat_debug4 ∧
    (gpupreagg_reset_kernel_task kg flag).kparams = kg.kparams :=
  ⟨rfl, rfl, rfl, rfl, rfl, rfl, rfl, rfl, rfl, rfl, rfl, rfl, rfl, rfl, rfl,
   rfl, rfl, rfl, rfl⟩

/-- Claim C8: hash item `i` occupies the `(i+1)`-th `preagg_hash_item`-sized
region counted backwards from the end of the backing buffer (byte length
`length`), successive indices grow from the tail toward the front, and
distinct indices address disjoint 12-byte regions. -/
theorem C8_hash_items_grow_from_tail (L i j : Nat) (x : Int) :
    GLOBAL_HASHSLOT_GETITEM L i + (sizeofPreaggHashItem : Int) * ((i : Int) + 1)
      = (L : Int) ∧
    GLOBAL_HASHSLOT_GETITEM L (i + 1) + (sizeofPreaggHashItem : Int)
      = GLOBAL_HASHSLOT_GETITEM L i ∧
    (i ≠ j →
      ¬(GLOBAL_HASHSLOT_GETITEM L i ≤ x ∧
        x < GLOBAL_HASHSLOT_GETITEM L i + (sizeofPreaggHashItem : Int) ∧
        GLOBAL_HASHSLOT_GETITEM L j ≤ x ∧
        x < GLOBAL_HASHSLOT_GETITEM L j + (sizeofPreaggHashItem : Int))) := by
  unfold GLOBAL_HASHSLOT_GETITEM sizeofPreaggHashItem
  refine ⟨by push_cast; ring, by push_cast; ring, ?_⟩
  rintro hij ⟨h1, h2, h3, h4⟩
  push_cast at h1 h2 h3 h4
  omega

/-- Witness for C8: with a 100-byte buffer, items 0 and 1 do not overlap at
offset 95 (which lies inside item 0's region). -/
theorem C8_hash_items_grow_from_tail_witness :
    ¬(GLOBAL_HASHSLOT_GETITEM 100 0 ≤ (95 : Int) ∧
      (95 : Int) < GLOBAL_HASHSLOT_GETITEM 100 0 + (sizeofPreaggHashItem : Int) ∧
      GLOBAL_HASHSLOT_GETITEM 100 1 ≤ (95 : Int) ∧
      (95 : Int) < GLOBAL_HASHSLOT_GETITEM 100 1 + (sizeofPreaggHashItem : Int)) :=
  (C8_hash_items_grow_from_tail 100 0 1 95).2.2 (by decide)

/-- Claim C9: the suspend-context accessor yields `NULL` whenever
`suspend_size` is zero, and otherwise the address of the `group_id`-th
`gpupreaggSuspendContext` entry of the array placed right after the kernel
parameter buffer, i.e. at offset `offsetof(kern_gpupreagg, kparams) +
kparams.length` (= `KERN_GPUPREAGG_LENGTH`). -/
theorem C9_suspend_context_accessor (off : Nat) (kg : KernGpupreagg) (gid : Nat) :
    (kg.suspend_size = 0 → KERN_GPUPREAGG_SUSPEND_CONTEXT off kg gid = none) ∧
    (0 < kg.suspend_size →
      KERN_GPUPREAGG_SUSPEND_CONTEXT off kg gid =
        some (KERN_GPUPREAGG_LENGTH off kg + sizeofGpupreaggSuspendContext * gid)) := by
  unfold KERN_GPUPREAGG_SUSPEND_CONTEXT KERN_GPUPREAGG_LENGTH
  constructor
  · intro h; rw [if_neg]; omega
  · intro h; rw [if_pos h]

/-- Witness for C9 at concrete control blocks (one idle, one suspended). -/
theorem C9_suspend_context_accessor_witness :
    KERN_GPUPREAGG_SUSPEND_CONTEXT 200 sampleKgIdle 3 = none ∧
    KERN_GPUPREAGG_SUSPEND_CONTEXT 200 sampleKgSuspended 3 =
      some (KERN_GPUPREAGG_LENGTH 200 sampleKgSuspended
            + sizeofGpupreaggSuspendContext * 3) :=
  ⟨(C9_suspend_context_accessor 200 sampleKgIdle 3).1 rfl,
   (C9_suspend_context_accessor 200 sampleKgSuspended 3).2 (by decide)⟩

/-- Claim C10: every combine function of the library tolerates exactly the
class tags `NORMAL` and `NULL` for the contributed value: under that
precondition the assertion in the non-`NORMAL` branch holds, while any other
class tag (the has-extra-bytes classes) violates it. -/
theorem C10_combine_assertion_discipline (a : Accum) (c : DatumClass) (v : Nat) :
    (c = DatumClass.NORMAL ∨ c = DatumClass.NULL → combineAssertsOk a c v) ∧
    (c ≠ DatumClass.NORMAL → c ≠ DatumClass.NULL → combineAssertsFail a c v) := by
  constructor
  · rintro (rfl | rfl)
    · exact ⟨rfl, rfl, rfl, rfl, rfl, rfl, rfl, rfl, rfl, rfl, rfl, rfl, rfl, rfl, rfl, rfl, rfl, rfl, rfl, rfl, rfl, rfl, rfl, rfl, rfl, rfl, rfl, rfl, rfl, rfl, rfl, rfl, rfl, rfl, rfl, rfl⟩
    · exact ⟨rfl, rfl, rfl, rfl, rfl, rfl, rfl, rfl, rfl, rfl, rfl, rfl, rfl, rfl, rfl, rfl, rfl, rfl, rfl, rfl, rfl, rfl, rfl, rfl, rfl, rfl, rfl, rfl, rfl, rfl, rfl, rfl, rfl, rfl, rfl, rfl⟩
  · intro h1 h2
    cases c with
    | NORMAL => exact absurd rfl h1
    | NULL => exact absurd rfl h2
    | EXTRA => exact ⟨rfl, rfl, rfl, rfl, rfl, rfl, rfl, rfl, rfl, rfl, rfl, rfl, rfl, rfl, rfl, rfl, rfl, rfl, rfl, rfl, rfl, rfl, rfl, rfl, rfl, rfl, rfl, rfl, rfl, rfl, rfl, rfl, rfl, rfl, rfl, rfl⟩

/-- Witness for C10: the assertions hold for a `NULL` contribution and are
violated for an `EXTRA` contribution. -/
theorem C10_combine_assertion_discipline_witness :
    combineAssertsOk ⟨DatumClass.NULL, 0⟩ DatumClass.NULL 5 ∧
    combineAssertsFail ⟨DatumClass.NULL, 0⟩ DatumClass.EXTRA 5 :=
  ⟨(C10_combine_assertion_discipline ⟨DatumClass.NULL, 0⟩ DatumClass.NULL 5).1
      (Or.inr rfl),
   (C10_combine_assertion_discipline ⟨DatumClass.NULL, 0⟩ DatumClass.EXTRA 5).2
      (by decide) (by decide)⟩

/-! ## Integer sum folding (claim C6) -/

lemma normal_add_int_step (a : Accum) (v : Nat) :
    low32 ((aggcalc_normal_add_int a DatumClass.NORMAL v).1.datum)
      = (low32 a.datum + v) % 0x100000000 := by
  show low32 (setLow32 a.datum (ofInt32 (toInt32 a.datum + toInt32 v)))
      = (low32 a.datum + v) % 0x100000000
  rw [low32_setLow32]
  rw [show low32 (ofInt32 (toInt32 a.datum + toInt32 v))
      = ofInt32 (toInt32 a.datum + toInt32 v) % 0x100000000 from rfl]
  rw [ofInt32_add_eq]
  unfold low32
  omega

lemma merge_add_int_step (a : Accum) (v : Nat) :
    low32 ((aggcalc_merge_add_int a DatumClass.NORMAL v).1.datum)
      = (low32 a.datum + v) % 0x100000000 := by
  show low32 (setLow32 a.datum (ofInt32 (toInt32 a.datum + toInt32 v)))
      = (low32 a.datum + v) % 0x100000000
  rw [low32_setLow32]
  rw [show low32 (ofInt32 (toInt32 a.datum + toInt32 v))
      = ofInt32 (toInt32 a.datum + toInt32 v) % 0x100000000 from rfl]
  rw [ofInt32_add_eq]
  unfold low32
  omega

lemma normal_add_long_step (a : Accum) (v : Nat) :
    low64 ((aggcalc_normal_add_long a DatumClass.NORMAL v).1.datum)
      = (low64 a.datum + v) % 0x10000000000000000 := by
  show low64 (ofInt64 (toInt64 a.datum + toInt64 v))
      = (low64 a.datum + v) % 0x10000000000000000
  rw [show low64 (ofInt64 (toInt64 a.datum + toInt64 v))
      = ofInt64 (toInt64 a.datum + toInt64 v) % 0x10000000000000000 from rfl]
  rw [ofInt64_add_eq]
  unfold low64
  omega

lemma merge_add_long_step (a : Accum) (v : Nat) :
    low64 ((aggcalc_merge_add_long a DatumClass.NORMAL v).1.datum)
      = (low64 a.datum + v) % 0x10000000000000000 := by
  show low64 ((low64 a.datum + low64 v) % 0x10000000000000000)
      = (low64 a.datum + v) % 0x10000000000000000
  unfold low64
  omega

lemma normal_add_int_fold (vs : List Nat) : ∀ a : Accum,
    low32 ((vs.foldl (fun acc v => (aggcalc_normal_add_int acc DatumClass.NORMAL v).1)
      a).datum) = (low32 a.datum + vs.sum) % 0x100000000 := by
  induction vs with
  | nil =>
    intro a
    show low32 a.datum = (low32 a.datum + ([] : List Nat).sum) % 0x100000000
    unfold low32; simp
  | cons v rest ih =>
    intro a
    rw [List.foldl_cons, ih, normal_add_int_step, List.sum_cons]
    unfold low32; omega

lemma merge_add_int_fold (vs : List Nat) : ∀ a : Accum,
    low32 ((vs.foldl (fun acc v => (aggcalc_merge_add_int acc DatumClass.NORMAL v).1)
      a).datum) = (low32 a.datum + vs.sum) % 0x100000000 := by
  induction vs with
  | nil =>
    intro a
    show low32 a.datum = (low32 a.datum + ([] : List Nat).sum) % 0x100000000
    unfold low32; simp
  | cons v rest ih =>
    intro a
    rw [List.foldl_cons, ih, merge_add_int_step, List.sum_cons]
    unfold low32; omega

lemma normal_add_long_fold (vs : List Nat) : ∀ a : Accum,
    low64 ((vs.foldl (fun acc v => (aggcalc_normal_add_long acc DatumClass.NORMAL v).1)
      a).datum) = (low64 a.datum + vs.sum) % 0x10000000000000000 := by
  induction vs with
  | nil =>
    intro a
    show low64 a.datum = (low64 a.datum + ([] : List Nat).sum) % 0x10000000000000000
    unfold low64; simp
  | cons v rest ih =>
    intro a
    rw [List.foldl_cons, ih, normal_add_long_step, List.sum_cons]
    unfold low64; omega

lemma merge_add_long_fold (vs : List Nat) : ∀ a : Accum,
    low64 ((vs.foldl (fun acc v => (aggcalc_merge_add_long acc DatumClass.NORMAL v).1)
      a).datum) = (low64 a.datum + vs.sum) % 0x10000000000000000 := by
  induction vs with
  | nil =>
    intro a
    show low64 a.datum = (low64 a.datum + ([] : List Nat).sum) % 0x10000000000000000
    unfold low64; simp
  | cons v rest ih =>
    intro a
    rw [List.foldl_cons, ih, merge_add_long_step, List.sum_cons]
    unfold low64; omega

/-- Claim C6: for the 32-bit and 64-bit integer sums (both through the normal
update and through the uncontended atomic merge), after any finite sequence
of `NORMAL` contributions applied to an initialized accumulator the stored
slot holds the sum of the contributions reduced modulo `2^32` respectively
`2^64` — wraparound, not saturation. -/
theorem C6_integer_sum_wraps (vs : List Nat) :
    low32 ((vs.foldl (fun a v => (aggcalc_normal_add_int a DatumClass.NORMAL v).1)
        aggcalc_init_add_int).datum) = vs.sum % 0x100000000 ∧
    low32 ((vs.foldl (fun a v => (aggcalc_merge_add_int a DatumClass.NORMAL v).1)
        aggcalc_init_add_int).datum) = vs.sum % 0x100000000 ∧
    low64 ((vs.foldl (fun a v => (aggcalc_normal_add_long a DatumClass.NORMAL v).1)
        aggcalc_init_add_long).datum) = vs.sum % 0x10000000000000000 ∧
    low64 ((vs.foldl (fun a v => (aggcalc_merge_add_long a DatumClass.NORMAL v).1)
        aggcalc_init_add_long).datum) = vs.sum % 0x10000000000000000 := by
  refine ⟨?_, ?_, ?_, ?_⟩
  · rw [normal_add_int_fold]
    show (low32 0 + vs.sum) % 0x100000000 = vs.sum % 0x100000000
    unfold low32; omega
  · rw [merge_add_int_fold]
    show (low32 0 + vs.sum) % 0x100000000 = vs.sum % 0x100000000
    unfold low32; omega
  · rw [normal_add_long_fold]
    show (low64 0 + vs.sum) % 0x10000000000000000 = vs.sum % 0x10000000000000000
    unfold low64; omega
  · rw [merge_add_long_fold]
    show (low64 0 + vs.sum) % 0x10000000000000000 = vs.sum % 0x10000000000000000
    unfold low64; omega

/-! ## Binary32 facts -/

lemma log2_sig32 (e m : Nat) (he : 1 ≤ e) (hm : m < 0x800000) :
    Nat.log 2 ((0x800000 + m) * 2 ^ (e - 1)) = 22 + e := by
  have h1 : 22 + e = 23 + (e - 1) := by omega
  rw [h1]
  apply Nat.log_eq_of_pow_le_of_lt_pow
  · rw [pow_add]
    exact Nat.mul_le_mul_right _ (by omega)
  · rw [show 23 + (e - 1) + 1 = 24 + (e - 1) from by omega, pow_add]
    exact mul_lt_mul_of_pos_right (by omega) (pow_pos (by norm_num) _)

lemma roundSig32_rep (e m : Nat) (he1 : 1 ≤ e) (hm : m < 0x800000) :
    roundSig32 ((0x800000 + m) * 2 ^ (e - 1)) = (0x800000 + m) * 2 ^ (e - 1) := by
  by_cases h1 : e = 1
  · subst h1
    have hM : (0x800000 + m) * 2 ^ (1 - 1) = 0x800000 + m := by norm_num
    rw [hM]
    unfold roundSig32
    rw [if_pos (by omega)]
  · have hge : 2 ^ 24 ≤ (0x800000 + m) * 2 ^ (e - 1) := by
      calc (2 : Nat) ^ 24 = 2 ^ 23 * 2 ^ 1 := by norm_num
      _ ≤ (0x800000 + m) * 2 ^ (e - 1) :=
          Nat.mul_le_mul (by omega) (Nat.pow_le_pow_right (by norm_num) (by omega))
    have hlog : Nat.log 2 ((0x800000 + m) * 2 ^ (e - 1)) = 22 + e :=
      log2_sig32 e m (by omega) hm
    unfold roundSig32
    rw [hlog, show 22 + e - 23 = e - 1 from by omega, Nat.mul_mod_left]
    rw [if_neg (not_lt.mpr hge)]
    rw [if_pos (by simpa using pow_pos (show (0 : Nat) < 2 from by norm_num) (e - 1))]
    simp

lemma encodeMag32_sub (s m : Nat) (h0 : 0 < m) (hm : m < 0x800000) :
    encodeMag32 s m = s * 0x80000000 + m := by
  unfold encodeMag32
  rw [if_neg (by omega), if_neg (by omega), if_pos hm]

lemma encodeMag32_rep (s e m : Nat) (he1 : 1 ≤ e) (he : e ≤ 254) (hm : m < 0x800000) :
    encodeMag32 s ((0x800000 + m) * 2 ^ (e - 1)) = s * 0x80000000 + e * 0x800000 + m := by
  have hlog : Nat.log 2 ((0x800000 + m) * 2 ^ (e - 1)) = 22 + e :=
    log2_sig32 e m (by omega) hm
  have hpos : 0 < (0x800000 + m) * 2 ^ (e - 1) := by positivity
  have hle : (0x800000 + m) * 2 ^ (e - 1) ≤ (2 ^ 24 - 1) * 2 ^ 253 :=
    Nat.mul_le_mul (by omega) (Nat.pow_le_pow_right (by norm_num) (by omega))
  have hge : 0x800000 ≤ (0x800000 + m) * 2 ^ (e - 1) := by
    calc (0x800000 : Nat) = 0x800000 * 1 := by norm_num
    _ ≤ (0x800000 + m) * 2 ^ (e - 1) :=
        Nat.mul_le_mul (by omega) (Nat.one_le_pow _ _ (by norm_num))
  unfold encodeMag32
  rw [if_neg (by omega), if_neg (not_lt.mpr hle), if_neg (not_lt.mpr hge)]
  rw [hlog, show 22 + e - 23 = e - 1 from by omega]
  rw [Nat.mul_div_cancel _ (pow_pos (by norm_num) _)]
  rw [show e - 1 + 1 = e from by omega]
  omega

lemma expf32_mk (s e m : Nat) (hs : s ≤ 1) (he : e < 256) (hm : m < 0x800000) :
    expf32 (s * 0x80000000 + e * 0x800000 + m) = e := by
  unfold expf32; omega

lemma mant32_mk (s e m : Nat) (hs : s ≤ 1) (he : e < 256) (hm : m < 0x800000) :
    mant32 (s * 0x80000000 + e * 0x800000 + m) = m := by
  unfold mant32; omega

lemma sgn32_mk (s e m : Nat) (hs : s ≤ 1) (he : e < 256) (hm : m < 0x800000) :
    sgn32 (s * 0x80000000 + e * 0x800000 + m) = s := by
  unfold sgn32; omega

lemma fval32_congr (b1 b2 : Nat) (he : expf32 b1 = expf32 b2)
    (hs : sgn32 b1 = sgn32 b2) (hm : mant32 b1 = mant32 b2) :
    fval32 b1 = fval32 b2 := by
  unfold fval32 sval32 mag32
  rw [he, hs, hm]

lemma mag32_le (b : Nat) (hb : expf32 b ≤ 254) : mag32 b ≤ (2 ^ 24 - 1) * 2 ^ 253 := by
  have hmlt : mant32 b < 0x800000 := by unfold mant32; omega
  unfold mag32
  split
  · omega
  · exact Nat.mul_le_mul (by omega) (Nat.pow_le_pow_right (by norm_num) (by omega))

set_option maxRecDepth 8000

lemma fval32_le_fltMax (b : Nat) (hb : b < 0x100000000) (hnan : isNan32 b = false)
    (hne : b ≠ 0x7f800000) : fval32 b ≤ fval32 0x7f7fffff := by
  have hmax : fval32 0x7f7fffff = (16777215 * 2 ^ 253 : Int) := by decide
  rw [hmax]
  by_cases he : expf32 b = 255
  · have hm0 : mant32 b = 0 := by
      unfold isNan32 at hnan
      simpa [he] using hnan
    by_cases hs : sgn32 b = 1
    · have hv : fval32 b = -(2 ^ 279) := by unfold fval32; rw [if_pos he, if_pos hs]
      rw [hv]; decide
    · exfalso
      apply hne
      have hs0 : sgn32 b = 0 := by unfold sgn32 at hs ⊢; omega
      unfold expf32 at he
      unfold mant32 at hm0
      unfold sgn32 at hs0
      omega
  · have hlt : expf32 b < 256 := by unfold expf32; omega
    have hb2 : mag32 b ≤ 16777215 * 2 ^ 253 := by
      have := mag32_le b (by omega)
      omega
    have hv : fval32 b = sval32 b := by unfold fval32; rw [if_neg he]
    rw [hv]
    unfold sval32
    split
    · calc -(mag32 b : Int) ≤ 0 := by simp
      _ ≤ (16777215 * 2 ^ 253 : Int) := by positivity
    · exact_mod_cast hb2

lemma fltNegMax_le_fval32 (b : Nat) (hb : b < 0x100000000) (hnan : isNan32 b = false)
    (hne : b ≠ 0xff800000) : fval32 0xff7fffff ≤ fval32 b := by
  have hmin : fval32 0xff7fffff = -(16777215 * 2 ^ 253 : Int) := by decide
  rw [hmin]
  by_cases he : expf32 b = 255
  · have hm0 : mant32 b = 0 := by
      unfold isNan32 at hnan
      simpa [he] using hnan
    by_cases hs : sgn32 b = 1
    · exfalso
      apply hne
      unfold expf32 at he
      unfold mant32 at hm0
      unfold sgn32 at hs
      omega
    · have hv : fval32 b = 2 ^ 279 := by unfold fval32; rw [if_pos he, if_neg hs]
      rw [hv]; decide
  · have hlt : expf32 b < 256 := by unfold expf32; omega
    have hb2 : mag32 b ≤ 16777215 * 2 ^ 253 := by
      have := mag32_le b (by omega)
      omega
    have hv : fval32 b = sval32 b := by unfold fval32; rw [if_neg he]
    rw [hv]
    unfold sval32
    split
    · have hc : (mag32 b : Int) ≤ (16777215 * 2 ^ 253 : Int) := by exact_mod_cast hb2
      omega
    · calc -(16777215 * 2 ^ 253 : Int) ≤ 0 := by simp
      _ ≤ (mag32 b : Int) := by simp

lemma fltLt32_fltMax_false (x : Nat) (hx : x < 0x100000000) (hne : x ≠ 0x7f800000) :
    fltLt32 0x7f7fffff x = false := by
  unfold fltLt32
  by_cases hnan : isNan32 x = true
  · simp [hnan]
  · have hnan2 : isNan32 x = false := by revert hnan; cases isNan32 x <;> simp
    have hle := fval32_le_fltMax x hx hnan2 hne
    simp [hnan2, show isNan32 0x7f7fffff = false from by decide]
    exact hle

lemma fltLt32_negMax_false (x : Nat) (hx : x < 0x100000000) (hne : x ≠ 0xff800000) :
    fltLt32 x 0xff7fffff = false := by
  unfold fltLt32
  by_cases hnan : isNan32 x = true
  · simp [hnan]
  · have hnan2 : isNan32 x = false := by revert hnan; cases isNan32 x <;> simp
    have hle := fltNegMax_le_fval32 x hx hnan2 hne
    simp [hnan2, show isNan32 0xff7fffff = false from by decide]
    exact hle

lemma fadd32_zero (y : Nat) (hy : y < 0x100000000) (hnan : isNan32 y = false) :
    faddBits32 0 y < 0x100000000 ∧ fval32 (faddBits32 0 y) = fval32 y := by
  by_cases hinf : isInf32 y = true
  · have hres : faddBits32 0 y = y := by
      unfold faddBits32
      simp [hnan, hinf, show isNan32 0 = false from by decide,
            show isInf32 0 = false from by decide]
    rw [hres]; exact ⟨hy, rfl⟩
  · have hinf2 : isInf32 y = false := by revert hinf; cases isInf32 y <;> simp
    have he255 : expf32 y ≠ 255 := by
      intro h
      unfold isNan32 at hnan
      unfold isInf32 at hinf2
      simp [h] at hnan hinf2
      exact hinf2 hnan
    have hres : faddBits32 0 y =
        (if sval32 y = 0 then 0
         else encodeMag32 (if sval32 y < 0 then 1 else 0)
                (roundSig32 (sval32 y).natAbs)) := by
      unfold faddBits32
      simp [hnan, hinf2, show isNan32 0 = false from by decide,
            show isInf32 0 = false from by decide,
            show sval32 0 = 0 from by decide,
            show sgn32 0 = 0 from by decide]
    rw [hres]
    by_cases hz : sval32 y = 0
    · rw [if_pos hz]
      refine ⟨by norm_num, ?_⟩
      have h0 : fval32 0 = 0 := by decide
      have hvy : fval32 y = sval32 y := by unfold fval32; rw [if_neg he255]
      rw [h0, hvy, hz]
    · rw [if_neg hz]
      have hE : expf32 y < 256 := by unfold expf32; omega
      have hm : mant32 y < 0x800000 := by unfold mant32; omega
      have hsle : sgn32 y ≤ 1 := by unfold sgn32; omega
      have habs : (sval32 y).natAbs = mag32 y := by
        unfold sval32; split <;> simp
      have hmagne : mag32 y ≠ 0 := by
        intro h
        apply hz
        unfold sval32
        split <;> simp [h]
      have hsgn : ((if sval32 y < 0 then 1 else 0) : Nat) = sgn32 y := by
        unfold sval32
        by_cases hsy : sgn32 y = 1
        · rw [if_pos hsy,
              if_pos (neg_lt_zero.mpr (by exact_mod_cast Nat.pos_of_ne_zero hmagne)),
              hsy]
        · have hs0 : sgn32 y = 0 := by unfold sgn32 at hsy ⊢; omega
          rw [if_neg hsy, if_neg (not_lt.mpr (by positivity)), hs0]
      rw [habs, hsgn]
      by_cases he0 : expf32 y = 0
      · have hmag : mag32 y = mant32 y := by unfold mag32; rw [if_pos he0]
        have hm0 : 0 < mant32 y := by rw [hmag] at hmagne; omega
        have hround : roundSig32 (mag32 y) = mag32 y := by
          rw [hmag]; unfold roundSig32; rw [if_pos (by omega)]
        rw [hround, hmag, encodeMag32_sub (sgn32 y) (mant32 y) hm0 hm]
        constructor
        · omega
        · rw [show sgn32 y * 0x80000000 + mant32 y
              = sgn32 y * 0x80000000 + 0 * 0x800000 + mant32 y from by ring]
          apply fval32_congr
          · rw [expf32_mk _ _ _ hsle (by norm_num) hm, he0]
          · rw [sgn32_mk _ _ _ hsle (by norm_num) hm]
          · rw [mant32_mk _ _ _ hsle (by norm_num) hm]
      · have he1 : 1 ≤ expf32 y := by omega
        have hele : expf32 y ≤ 254 := by omega
        have hmag : mag32 y = (0x800000 + mant32 y) * 2 ^ (expf32 y - 1) := by
          unfold mag32; rw [if_neg he0]
        rw [hmag, roundSig32_rep (expf32 y) (mant32 y) he1 hm,
            encodeMag32_rep (sgn32 y) (expf32 y) (mant32 y) he1 hele hm]
        constructor
        · omega
        · apply fval32_congr
          · rw [expf32_mk _ _ _ hsle (by omega) hm]
          · rw [sgn32_mk _ _ _ hsle (by omega) hm]
          · rw [mant32_mk _ _ _ hsle (by omega) hm]

lemma log2_sig64 (e m : Nat) (he : 1 ≤ e) (hm : m < 0x10000000000000) :
    Nat.log 2 ((0x10000000000000 + m) * 2 ^ (e - 1)) = 51 + e := by
  have h1 : 51 + e = 52 + (e - 1) := by omega
  rw [h1]
  apply Nat.log_eq_of_pow_le_of_lt_pow
  · rw [pow_add]
    exact Nat.mul_le_mul_right _ (by omega)
  · rw [show 52 + (e - 1) + 1 = 53 + (e - 1) from by omega, pow_add]
    exact mul_lt_mul_of_pos_right (by omega) (pow_pos (by norm_num) _)

lemma roundSig64_rep (e m : Nat) (he1 : 1 ≤ e) (hm : m < 0x10000000000000) :
    roundSig64 ((0x10000000000000 + m) * 2 ^ (e - 1)) = (0x10000000000000 + m) * 2 ^ (e - 1) := by
  by_cases h1 : e = 1
  · subst h1
    have hM : (0x10000000000000 + m) * 2 ^ (1 - 1) = 0x10000000000000 + m := by norm_num
    rw [hM]
    unfold roundSig64
    rw [if_pos (by omega)]
  · have hge : 2 ^ 53 ≤ (0x10000000000000 + m) * 2 ^ (e - 1) := by
      calc (2 : Nat) ^ 53 = 2 ^ 52 * 2 ^ 1 := by norm_num
      _ ≤ (0x10000000000000 + m) * 2 ^ (e - 1) :=
          Nat.mul_le_mul (by omega) (Nat.pow_le_pow_right (by norm_num) (by omega))
    have hlog : Nat.log 2 ((0x10000000000000 + m) * 2 ^ (e - 1)) = 51 + e :=
      log2_sig64 e m (by omega) hm
    unfold roundSig64
    rw [hlog, show 51 + e - 52 = e - 1 from by omega, Nat.mul_mod_left]
    rw [if_neg (not_lt.mpr hge)]
    rw [if_pos (by simpa using pow_pos (show (0 : Nat) < 2 from by norm_num) (e - 1))]
    simp

lemma encodeMag64_sub (s m : Nat) (h0 : 0 < m) (hm : m < 0x10000000000000) :
    encodeMag64 s m = s * 0x8000000000000000 + m := by
  unfold encodeMag64
  rw [if_neg (by omega), if_neg (by omega), if_pos hm]

lemma encodeMag64_rep (s e m : Nat) (he1 : 1 ≤ e) (he : e ≤ 2046) (hm : m < 0x10000000000000) :
    encodeMag64 s ((0x10000000000000 + m) * 2 ^ (e - 1)) = s * 0x8000000000000000 + e * 0x10000000000000 + m := by
  have hlog : Nat.log 2 ((0x10000000000000 + m) * 2 ^ (e - 1)) = 51 + e :=
    log2_sig64 e m (by omega) hm
  have hpos : 0 < (0x10000000000000 + m) * 2 ^ (e - 1) := by positivity
  have hle : (0x10000000000000 + m) * 2 ^ (e - 1) ≤ (2 ^ 53 - 1) * 2 ^ 2045 :=
    Nat.mul_le_mul (by omega) (Nat.pow_le_pow_right (by norm_num) (by omega))
  have hge : 0x10000000000000 ≤ (0x10000000000000 + m) * 2 ^ (e - 1) := by
    calc (0x10000000000000 : Nat) = 0x10000000000000 * 1 := by norm_num
    _ ≤ (0x10000000000000 + m) * 2 ^ (e - 1) :=
        Nat.mul_le_mul (by omega) (Nat.one_le_pow _ _ (by norm_num))
  unfold encodeMag64
  rw [if_neg (by omega), if_neg (not_lt.mpr hle), if_neg (not_lt.mpr hge)]
  rw [hlog, show 51 + e - 52 = e - 1 from by omega]
  rw [Nat.mul_div_cancel _ (pow_pos (by norm_num) _)]
  rw [show e - 1 + 1 = e from by omega]
  omega

lemma expf64_mk (s e m : Nat) (hs : s ≤ 1) (he : e < 2048) (hm : m < 0x10000000000000) :
    expf64 (s * 0x8000000000000000 + e * 0x10000000000000 + m) = e := by
  unfold expf64; omega

lemma mant64_mk (s e m : Nat) (hs : s ≤ 1) (he : e < 2048) (hm : m < 0x10000000000000) :
    mant64 (s * 0x8000000000000000 + e * 0x10000000000000 + m) = m := by
  unfold mant64; omega

lemma sgn64_mk (s e m : Nat) (hs : s ≤ 1) (he : e < 2048) (hm : m < 0x10000000000000) :
    sgn64 (s * 0x8000000000000000 + e * 0x10000000000000 + m) = s := by
  unfold sgn64; omega

lemma fval64_congr (b1 b2 : Nat) (he : expf64 b1 = expf64 b2)
    (hs : sgn64 b1 = sgn64 b2) (hm : mant64 b1 = mant64 b2) :
    fval64 b1 = fval64 b2 := by
  unfold fval64 sval64 mag64
  rw [he, hs, hm]

lemma mag64_le (b : Nat) (hb : expf64 b ≤ 2046) : mag64 b ≤ (2 ^ 53 - 1) * 2 ^ 2045 := by
  have hmlt : mant64 b < 0x10000000000000 := by unfold mant64; omega
  unfold mag64
  split
  · omega
  · exact Nat.mul_le_mul (by omega) (Nat.pow_le_pow_right (by norm_num) (by omega))

set_option maxRecDepth 8000

lemma fval64_dblMax_eq :
    fval64 0x7fefffffffffffff = (9007199254740991 * 2 ^ 2045 : Int) := by
  have he : expf64 0x7fefffffffffffff = 2046 := by norm_num [expf64]
  have hm : mant64 0x7fefffffffffffff = 0xfffffffffffff := by norm_num [mant64]
  have hs : sgn64 0x7fefffffffffffff = 0 := by norm_num [sgn64]
  unfold fval64 sval64 mag64
  rw [he, hm, hs]
  norm_num

lemma fval64_dblNegMax_eq :
    fval64 0xffefffffffffffff = -(9007199254740991 * 2 ^ 2045 : Int) := by
  have he : expf64 0xffefffffffffffff = 2046 := by norm_num [expf64]
  have hm : mant64 0xffefffffffffffff = 0xfffffffffffff := by norm_num [mant64]
  have hs : sgn64 0xffefffffffffffff = 1 := by norm_num [sgn64]
  unfold fval64 sval64 mag64
  rw [he, hm, hs]
  norm_num

lemma fval64_le_dblMax (b : Nat) (hb : b < 0x10000000000000000) (hnan : isNan64 b = false)
    (hne : b ≠ 0x7ff0000000000000) : fval64 b ≤ fval64 0x7fefffffffffffff := by
  rw [fval64_dblMax_eq]
  by_cases he : expf64 b = 2047
  · have hm0 : mant64 b = 0 := by
      unfold isNan64 at hnan
      simpa [he] using hnan
    by_cases hs : sgn64 b = 1
    · have hv : fval64 b = -(2 ^ 2200) := by unfold fval64; rw [if_pos he, if_pos hs]
      rw [hv]
      calc -(2 ^ 2200 : Int) ≤ 0 := by simp
      _ ≤ (9007199254740991 * 2 ^ 2045 : Int) := by positivity
    · exfalso
      apply hne
      have hs0 : sgn64 b = 0 := by unfold sgn64 at hs ⊢; omega
      unfold expf64 at he
      unfold mant64 at hm0
      unfold sgn64 at hs0
      omega
  · have hlt : expf64 b < 2048 := by unfold expf64; omega
    have hb2 : mag64 b ≤ 9007199254740991 * 2 ^ 2045 := by
      have h2 := mag64_le b (by omega)
      rw [show ((2 : Nat) ^ 53 - 1) = 9007199254740991 from by norm_num] at h2
      exact h2
    have hv : fval64 b = sval64 b := by unfold fval64; rw [if_neg he]
    rw [hv]
    unfold sval64
    split
    · calc -(mag64 b : Int) ≤ 0 := by simp
      _ ≤ (9007199254740991 * 2 ^ 2045 : Int) := by positivity
    · exact_mod_cast hb2

lemma dblNegMax_le_fval64 (b : Nat) (hb : b < 0x10000000000000000) (hnan : isNan64 b = false)
    (hne : b ≠ 0xfff0000000000000) : fval64 0xffefffffffffffff ≤ fval64 b := by
  rw [fval64_dblNegMax_eq]
  by_cases he : expf64 b = 2047
  · have hm0 : mant64 b = 0 := by
      unfold isNan64 at hnan
      simpa [he] using hnan
    by_cases hs : sgn64 b = 1
    · exfalso
      apply hne
      unfold expf64 at he
      unfold mant64 at hm0
      unfold sgn64 at hs
      omega
    · have hv : fval64 b = 2 ^ 2200 := by unfold fval64; rw [if_pos he, if_neg hs]
      rw [hv]
      calc -(9007199254740991 * 2 ^ 2045 : Int) ≤ 0 := by simp
      _ ≤ (2 ^ 2200 : Int) := by positivity
  · have hlt : expf64 b < 2048 := by unfold expf64; omega
    have hb2 : mag64 b ≤ 9007199254740991 * 2 ^ 2045 := by
      have h2 := mag64_le b (by omega)
      rw [show ((2 : Nat) ^ 53 - 1) = 9007199254740991 from by norm_num] at h2
      exact h2
    have hv : fval64 b = sval64 b := by unfold fval64; rw [if_neg he]
    rw [hv]
    unfold sval64
    split
    · have hc : (mag64 b : Int) ≤ (9007199254740991 * 2 ^ 2045 : Int) := by exact_mod_cast hb2
      exact neg_le_neg hc
    · calc -(9007199254740991 * 2 ^ 2045 : Int) ≤ 0 := by simp
      _ ≤ (mag64 b : Int) := by simp

lemma fltLt64_dblMax_false (x : Nat) (hx : x < 0x10000000000000000) (hne : x ≠ 0x7ff0000000000000) :
    fltLt64 0x7fefffffffffffff x = false := by
  unfold fltLt64
  by_cases hnan : isNan64 x = true
  · simp [hnan]
  · have hnan2 : isNan64 x = false := by revert hnan; cases isNan64 x <;> simp
    have hle := fval64_le_dblMax x hx hnan2 hne
    simp [hnan2, show isNan64 0x7fefffffffffffff = false from by decide]
    exact hle

lemma fltLt64_dblNegMax_false (x : Nat) (hx : x < 0x10000000000000000) (hne : x ≠ 0xfff0000000000000) :
    fltLt64 x 0xffefffffffffffff = false := by
  unfold fltLt64
  by_cases hnan : isNan64 x = true
  · simp [hnan]
  · have hnan2 : isNan64 x = false := by revert hnan; cases isNan64 x <;> simp
    have hle := dblNegMax_le_fval64 x hx hnan2 hne
    simp [hnan2, show isNan64 0xffefffffffffffff = false from by decide]
    exact hle

lemma fadd64_zero (y : Nat) (hy : y < 0x10000000000000000) (hnan : isNan64 y = false) :
    faddBits64 0 y < 0x10000000000000000 ∧ fval64 (faddBits64 0 y) = fval64 y := by
  by_cases hinf : isInf64 y = true
  · have hres : faddBits64 0 y = y := by
      unfold faddBits64
      simp [hnan, hinf, show isNan64 0 = false from by decide,
            show isInf64 0 = false from by decide]
    rw [hres]; exact ⟨hy, rfl⟩
  · have hinf2 : isInf64 y = false := by revert hinf; cases isInf64 y <;> simp
    have he255 : expf64 y ≠ 2047 := by
      intro h
      unfold isNan64 at hnan
      unfold isInf64 at hinf2
      simp [h] at hnan hinf2
      exact hinf2 hnan
    have hres : faddBits64 0 y =
        (if sval64 y = 0 then 0
         else encodeMag64 (if sval64 y < 0 then 1 else 0)
                (roundSig64 (sval64 y).natAbs)) := by
      unfold faddBits64
      simp [hnan, hinf2, show isNan64 0 = false from by decide,
            show isInf64 0 = false from by decide,
            show sval64 0 = 0 from by decide,
            show sgn64 0 = 0 from by decide]
    rw [hres]
    by_cases hz : sval64 y = 0
    · rw [if_pos hz]
      refine ⟨by norm_num, ?_⟩
      have h0 : fval64 0 = 0 := by decide
      have hvy : fval64 y = sval64 y := by unfold fval64; rw [if_neg he255]
      rw [h0, hvy, hz]
    · rw [if_neg hz]
      have hE : expf64 y < 2048 := by unfold expf64; omega
      have hm : mant64 y < 0x10000000000000 := by unfold mant64; omega
      have hsle : sgn64 y ≤ 1 := by unfold sgn64; omega
      have habs : (sval64 y).natAbs = mag64 y := by
        unfold sval64; split <;> simp
      have hmagne : mag64 y ≠ 0 := by
        intro h
        apply hz
        unfold sval64
        split <;> simp [h]
      have hsgn : ((if sval64 y < 0 then 1 else 0) : Nat) = sgn64 y := by
        unfold sval64
        by_cases hsy : sgn64 y = 1
        · rw [if_pos hsy,
              if_pos (neg_lt_zero.mpr (by exact_mod_cast Nat.pos_of_ne_zero hmagne)),
              hsy]
        · have hs0 : sgn64 y = 0 := by unfold sgn64 at hsy ⊢; omega
          rw [if_neg hsy, if_neg (not_lt.mpr (by positivity)), hs0]
      rw [habs, hsgn]
      by_cases he0 : expf64 y = 0
      · have hmag : mag64 y = mant64 y := by unfold mag64; rw [if_pos he0]
        have hm0 : 0 < mant64 y := by rw [hmag] at hmagne; omega
        have hround : roundSig64 (mag64 y) = mag64 y := by
          rw [hmag]; unfold roundSig64; rw [if_pos (by omega)]
        rw [hround, hmag, encodeMag64_sub (sgn64 y) (mant64 y) hm0 hm]
        constructor
        · omega
        · rw [show sgn64 y * 0x8000000000000000 + mant64 y
              = sgn64 y * 0x8000000000000000 + 0 * 0x10000000000000 + mant64 y from by ring]
          apply fval64_congr
          · rw [expf64_mk _ _ _ hsle (by norm_num) hm, he0]
          · rw [sgn64_mk _ _ _ hsle (by norm_num) hm]
          · rw [mant64_mk _ _ _ hsle (by norm_num) hm]
      · have he1 : 1 ≤ expf64 y := by omega
        have hele : expf64 y ≤ 2046 := by omega
        have hmag : mag64 y = (0x10000000000000 + mant64 y) * 2 ^ (expf64 y - 1) := by
          unfold mag64; rw [if_neg he0]
        rw [hmag, roundSig64_rep (expf64 y) (mant64 y) he1 hm,
            encodeMag64_rep (sgn64 y) (expf64 y) (mant64 y) he1 hele hm]
        constructor
        · omega
        · apply fval64_congr
          · rw [expf64_mk _ _ _ hsle (by omega) hm]
          · rw [sgn64_mk _ _ _ hsle (by omega) hm]
          · rw [mant64_mk _ _ _ hsle (by omega) hm]

/-- Claim C1 (amended): for every accumulate kind, one `NORMAL` combine of a
contributed value `v` into the freshly initialized accumulator stores exactly
`v` — unconditionally for the six integer kinds, and for the floating kinds
under each kind's own proviso only: for min (max) that `v` is not the `+∞`
(`-∞`) pattern, which loses against the finite `FLT_MAX`/`DBL_MAX` init
value, and for the sums that `v` is not NaN (equality is then as floating
value, since `0.0 + (-0.0)` renormalizes the sign of zero). -/
theorem C1_init_identity (v : Nat) : initIdentity v := by
  have hv32 : low32 v < 0x100000000 := by unfold low32; omega
  have hv64 : low64 v < 0x10000000000000000 := by unfold low64; omega
  refine ⟨?_, ?_, ?_, ?_, ?_, ?_, ?_, ?_, ?_, ?_, ?_, ?_⟩
  · have hi : toInt32 aggcalc_init_min_int.datum = 2147483647 := by decide
    show low32 (setLow32 aggcalc_init_min_int.datum
        (ofInt32 (min (toInt32 aggcalc_init_min_int.datum) (toInt32 v)))) = low32 v
    rw [hi, low32_setLow32, min_eq_right (toInt32_le v), ofInt32_toInt32]
    exact low32_low32 v
  · have hi : toInt32 aggcalc_init_max_int.datum = -2147483648 := by decide
    show low32 (setLow32 aggcalc_init_max_int.datum
        (ofInt32 (max (toInt32 aggcalc_init_max_int.datum) (toInt32 v)))) = low32 v
    rw [hi, low32_setLow32, max_eq_right (neg_le_toInt32 v), ofInt32_toInt32]
    exact low32_low32 v
  · show low32 (setLow32 aggcalc_init_add_int.datum
        (ofInt32 (toInt32 aggcalc_init_add_int.datum + toInt32 v))) = low32 v
    rw [low32_setLow32, ofInt32_add_eq]
    show low32 ((0 + v) % 0x100000000) = low32 v
    unfold low32; omega
  · have hi : toInt64 aggcalc_init_min_long.datum = 9223372036854775807 := by decide
    show ofInt64 (min (toInt64 aggcalc_init_min_long.datum) (toInt64 v)) = low64 v
    rw [hi, min_eq_right (toInt64_le v), ofInt64_toInt64]
    rfl
  · have hi : toInt64 aggcalc_init_max_long.datum = -9223372036854775808 := by decide
    show ofInt64 (max (toInt64 aggcalc_init_max_long.datum) (toInt64 v)) = low64 v
    rw [hi, max_eq_right (neg_le_toInt64 v), ofInt64_toInt64]
    rfl
  · show ofInt64 (toInt64 aggcalc_init_add_long.datum + toInt64 v) = low64 v
    rw [ofInt64_add_eq]
    show (0 + v) % 0x10000000000000000 = low64 v
    unfold low64; omega
  · intro h1
    have hl : low32 aggcalc_init_min_float.datum = 0x7f7fffff := by decide
    show low32 (setLow32 aggcalc_init_min_float.datum
        (if fltLt32 (low32 aggcalc_init_min_float.datum) (low32 v)
         then low32 aggcalc_init_min_float.datum else low32 v)) = low32 v
    rw [hl, fltLt32_fltMax_false (low32 v) hv32 h1, if_neg Bool.false_ne_true,
        low32_setLow32]
    exact low32_low32 v
  · intro h2
    have hl : low32 aggcalc_init_max_float.datum = 0xff7fffff := by decide
    show low32 (setLow32 aggcalc_init_max_float.datum
        (if fltLt32 (low32 v) (low32 aggcalc_init_max_float.datum)
         then low32 aggcalc_init_max_float.datum else low32 v)) = low32 v
    rw [hl, fltLt32_negMax_false (low32 v) hv32 h2, if_neg Bool.false_ne_true,
        low32_setLow32]
    exact low32_low32 v
  · intro h3
    have hl : low32 aggcalc_init_add_float.datum = 0 := by decide
    show fval32 (low32 (setLow32 aggcalc_init_add_float.datum
        (faddBits32 (low32 aggcalc_init_add_float.datum) (low32 v)))) = fval32 (low32 v)
    rw [hl, low32_setLow32]
    have hf := fadd32_zero (low32 v) hv32 h3
    rw [show low32 (faddBits32 0 (low32 v)) = faddBits32 0 (low32 v) from
        Nat.mod_eq_of_lt hf.1]
    exact hf.2
  · intro h4
    have hd : low64 aggcalc_init_min_double.datum = 0x7fefffffffffffff := by decide
    show (if fltLt64 (low64 aggcalc_init_min_double.datum) (low64 v)
          then low64 aggcalc_init_min_double.datum else low64 v) = low64 v
    rw [hd, fltLt64_dblMax_false (low64 v) hv64 h4, if_neg Bool.false_ne_true]
  · intro h5
    have hd : low64 aggcalc_init_max_double.datum = 0xffefffffffffffff := by decide
    show (if fltLt64 (low64 v) (low64 aggcalc_init_max_double.datum)
          then low64 aggcalc_init_max_double.datum else low64 v) = low64 v
    rw [hd, fltLt64_dblNegMax_false (low64 v) hv64 h5, if_neg Bool.false_ne_true]
  · intro h6
    have hd : low64 aggcalc_init_add_double.datum = 0 := by decide
    show fval64 (faddBits64 (low64 aggcalc_init_add_double.datum) (low64 v))
        = fval64 (low64 v)
    rw [hd]
    exact (fadd64_zero (low64 v) hv64 h6).2

/-- Witness for C1 at the contributed value `5`, with every per-kind proviso
discharged there. -/
theorem C1_init_identity_witness :
    low32 ((aggcalc_normal_min_int aggcalc_init_min_int
        DatumClass.NORMAL 5).1.datum) = low32 5 ∧
    low32 ((aggcalc_normal_max_int aggcalc_init_max_int
        DatumClass.NORMAL 5).1.datum) = low32 5 ∧
    low32 ((aggcalc_normal_add_int aggcalc_init_add_int
        DatumClass.NORMAL 5).1.datum) = low32 5 ∧
    (aggcalc_normal_min_long aggcalc_init_min_long
        DatumClass.NORMAL 5).1.datum = low64 5 ∧
    (aggcalc_normal_max_long aggcalc_init_max_long
        DatumClass.NORMAL 5).1.datum = low64 5 ∧
    (aggcalc_normal_add_long aggcalc_init_add_long
        DatumClass.NORMAL 5).1.datum = low64 5 ∧
    low32 ((aggcalc_normal_min_float aggcalc_init_min_float
        DatumClass.NORMAL 5).1.datum) = low32 5 ∧
    low32 ((aggcalc_normal_max_float aggcalc_init_max_float
        DatumClass.NORMAL 5).1.datum) = low32 5 ∧
    fval32 (low32 ((aggcalc_normal_add_float aggcalc_init_add_float
        DatumClass.NORMAL 5).1.datum)) = fval32 (low32 5) ∧
    (aggcalc_normal_min_double aggcalc_init_min_double
        DatumClass.NORMAL 5).1.datum = low64 5 ∧
    (aggcalc_normal_max_double aggcalc_init_max_double
        DatumClass.NORMAL 5).1.datum = low64 5 ∧
    fval64 ((aggcalc_normal_add_double aggcalc_init_add_double
        DatumClass.NORMAL 5).1.datum) = fval64 (low64 5) :=
  ⟨(C1_init_identity 5).1,
   (C1_init_identity 5).2.1,
   (C1_init_identity 5).2.2.1,
   (C1_init_identity 5).2.2.2.1,
   (C1_init_identity 5).2.2.2.2.1,
   (C1_init_identity 5).2.2.2.2.2.1,
   (C1_init_identity 5).2.2.2.2.2.2.1 (by decide),
   (C1_init_identity 5).2.2.2.2.2.2.2.1 (by decide),
   (C1_init_identity 5).2.2.2.2.2.2.2.2.1 (by decide),
   (C1_init_identity 5).2.2.2.2.2.2.2.2.2.1 (by decide),
   (C1_init_identity 5).2.2.2.2.2.2.2.2.2.2.1 (by decide),
   (C1_init_identity 5).2.2.2.2.2.2.2.2.2.2.2 (by decide)⟩

/-- Counterexample to C1 as stated: contributing the `+∞` float pattern to the
freshly initialized min-float accumulator does not leave `+∞` in the slot —
the stored pattern is the finite `FLT_MAX` one, strictly below `+∞`. -/
theorem C1_init_identity_counterexample :
    low32 ((aggcalc_normal_min_float aggcalc_init_min_float DatumClass.NORMAL
        0x7f800000).1.datum) ≠ low32 0x7f800000 ∧
    fval32 (low32 ((aggcalc_normal_min_float aggcalc_init_min_float DatumClass.NORMAL
        0x7f800000).1.datum)) < fval32 0x7f800000 := by
  constructor <;> decide

/-- Claim C4 (amended): every `aggcalc_init_*` marks the slot `NULL`-class,
and the raw value written is the kind's extreme representable finite value —
`INT_MAX`/`LONG_MAX`/`FLT_MAX`/`DBL_MAX` for min, `INT_MIN`/`LONG_MIN`/
`-FLT_MAX`/`-DBL_MAX` for max (for the floating kinds these are the
largest/smallest finite values, bounding every non-NaN finite pattern, and
not the infinities) — and zero for sum. -/
theorem C4_init_values (b32 b64 : Nat)
    (hb32 : b32 < 0x100000000) (hn32 : isNan32 b32 = false) (hi32 : isInf32 b32 = false)
    (hb64 : b64 < 0x10000000000000000) (hn64 : isNan64 b64 = false)
    (hi64 : isInf64 b64 = false) :
    aggcalc_init_min_int.dclass = DatumClass.NULL ∧
    aggcalc_init_max_int.dclass = DatumClass.NULL ∧
    aggcalc_init_add_int.dclass = DatumClass.NULL ∧
    aggcalc_init_min_long.dclass = DatumClass.NULL ∧
    aggcalc_init_max_long.dclass = DatumClass.NULL ∧
    aggcalc_init_add_long.dclass = DatumClass.NULL ∧
    aggcalc_init_min_float.dclass = DatumClass.NULL ∧
    aggcalc_init_max_float.dclass = DatumClass.NULL ∧
    aggcalc_init_add_float.dclass = DatumClass.NULL ∧
    aggcalc_init_min_double.dclass = DatumClass.NULL ∧
    aggcalc_init_max_double.dclass = DatumClass.NULL ∧
    aggcalc_init_add_double.dclass = DatumClass.NULL ∧
    toInt32 aggcalc_init_min_int.datum = 2147483647 ∧
    toInt32 aggcalc_init_max_int.datum = -2147483648 ∧
    aggcalc_init_add_int.datum = 0 ∧
    toInt64 aggcalc_init_min_long.datum = 9223372036854775807 ∧
    toInt64 aggcalc_init_max_long.datum = -9223372036854775808 ∧
    aggcalc_init_add_long.datum = 0 ∧
    low32 aggcalc_init_min_float.datum = 0x7f7fffff ∧
    fval32 b32 ≤ fval32 (low32 aggcalc_init_min_float.datum) ∧
    low32 aggcalc_init_max_float.datum = 0xff7fffff ∧
    fval32 (low32 aggcalc_init_max_float.datum) ≤ fval32 b32 ∧
    fval32 (low32 aggcalc_init_add_float.datum) = 0 ∧
    low64 aggcalc_init_min_double.datum = 0x7fefffffffffffff ∧
    fval64 b64 ≤ fval64 (low64 aggcalc_init_min_double.datum) ∧
    low64 aggcalc_init_max_double.datum = 0xffefffffffffffff ∧
    fval64 (low64 aggcalc_init_max_double.datum) ≤ fval64 b64 ∧
    fval64 (low64 aggcalc_init_add_double.datum) = 0 := by
  have hne32p : b32 ≠ 0x7f800000 := by
    intro h; rw [h] at hi32; exact absurd hi32 (by decide)
  have hne32n : b32 ≠ 0xff800000 := by
    intro h; rw [h] at hi32; exact absurd hi32 (by decide)
  have hne64p : b64 ≠ 0x7ff0000000000000 := by
    intro h; rw [h] at hi64; exact absurd hi64 (by decide)
  have hne64n : b64 ≠ 0xfff0000000000000 := by
    intro h; rw [h] at hi64; exact absurd hi64 (by decide)
  refine ⟨rfl, rfl, rfl, rfl, rfl, rfl, rfl, rfl, rfl, rfl, rfl, rfl,
    by decide, by decide, rfl, by decide, by decide, rfl,
    by decide, ?_, by decide, ?_, by decide,
    by decide, ?_, by decide, ?_, by decide⟩
  · rw [show low32 aggcalc_init_min_float.datum = 0x7f7fffff from by decide]
    exact fval32_le_fltMax b32 hb32 hn32 hne32p
  · rw [show low32 aggcalc_init_max_float.datum = 0xff7fffff from by decide]
    exact fltNegMax_le_fval32 b32 hb32 hn32 hne32n
  · rw [show low64 aggcalc_init_min_double.datum = 0x7fefffffffffffff from by decide]
    exact fval64_le_dblMax b64 hb64 hn64 hne64p
  · rw [show low64 aggcalc_init_max_double.datum = 0xffefffffffffffff from by decide]
    exact dblNegMax_le_fval64 b64 hb64 hn64 hne64n

/-- Witness for C4 at the finite patterns `5` (float) and `5` (double). -/
theorem C4_init_values_witness :
    (5 : Nat) < 0x100000000 ∧ isNan32 5 = false ∧ isInf32 5 = false ∧
    (5 : Nat) < 0x10000000000000000 ∧ isNan64 5 = false ∧ isInf64 5 = false ∧
    fval32 5 ≤ fval32 (low32 aggcalc_init_min_float.datum) :=
  ⟨by decide, by decide, by decide, by decide, by decide, by decide,
   (C4_init_values 5 5 (by decide) (by decide) (by decide) (by decide) (by decide)
      (by decide)).2.2.2.2.2.2.2.2.2.2.2.2.2.2.2.2.2.2.2.1⟩

/-- Counterexample to C4 as stated: the min-float init value is not `+∞` —
its stored pattern is the finite `FLT_MAX` one, strictly below `+∞`. -/
theorem C4_init_values_counterexample :
    isInf32 (low32 aggcalc_init_min_float.datum) = false ∧
    fval32 (low32 aggcalc_init_min_float.datum) < fval32 0x7f800000 := by
  constructor <;> decide

/-- Claim C5: with non-NaN operands and no concurrent writers, one call of
the atomic-merge min (max) for float and double leaves the accumulator
holding the floating minimum (maximum) of its previous value and the
contributed value; the compare-and-swap retry loop is driven by the floating
interpretation of the stored bit pattern (`fltLt32`/`fltLt64` on patterns),
not by the raw pattern order. -/
theorem C5_merge_float_minmax (a : Accum) (v : Nat) :
    (isNan32 (low32 a.datum) = false → isNan32 (low32 v) = false →
      mergeMinMaxFloat a v) ∧
    (isNan64 (low64 a.datum) = false → isNan64 (low64 v) = false →
      mergeMinMaxDouble a v) := by
  constructor
  · intro ha hv
    constructor
    · show fval32 (low32 (setLow32 a.datum
          (if fltLt32 (low32 a.datum) (low32 v)
           then low32 a.datum else low32 v)))
        = min (fval32 (low32 a.datum)) (fval32 (low32 v))
      rw [low32_setLow32]
      by_cases h : fltLt32 (low32 a.datum) (low32 v) = true
      · rw [if_pos h, low32_low32]
        have hlt : fval32 (low32 a.datum) < fval32 (low32 v) := by
          unfold fltLt32 at h
          simpa [ha, hv] using h
        exact (min_eq_left hlt.le).symm
      · rw [if_neg h, low32_low32]
        have hle : fval32 (low32 v) ≤ fval32 (low32 a.datum) := by
          unfold fltLt32 at h
          simpa [ha, hv, not_lt] using h
        exact (min_eq_right hle).symm
    · show fval32 (low32 (setLow32 a.datum
          (if fltLt32 (low32 v) (low32 a.datum)
           then low32 a.datum else low32 v)))
        = max (fval32 (low32 a.datum)) (fval32 (low32 v))
      rw [low32_setLow32]
      by_cases h : fltLt32 (low32 v) (low32 a.datum) = true
      · rw [if_pos h, low32_low32]
        have hlt : fval32 (low32 v) < fval32 (low32 a.datum) := by
          unfold fltLt32 at h
          simpa [ha, hv] using h
        exact (max_eq_left hlt.le).symm
      · rw [if_neg h, low32_low32]
        have hle : fval32 (low32 a.datum) ≤ fval32 (low32 v) := by
          unfold fltLt32 at h
          simpa [ha, hv, not_lt] using h
        exact (max_eq_right hle).symm
  · intro ha hv
    constructor
    · show fval64 (if fltLt64 (low64 a.datum) (low64 v)
          then low64 a.datum else low64 v)
        = min (fval64 (low64 a.datum)) (fval64 (low64 v))
      by_cases h : fltLt64 (low64 a.datum) (low64 v) = true
      · rw [if_pos h]
        have hlt : fval64 (low64 a.datum) < fval64 (low64 v) := by
          unfold fltLt64 at h
          simpa [ha, hv] using h
        exact (min_eq_left hlt.le).symm
      · rw [if_neg h]
        have hle : fval64 (low64 v) ≤ fval64 (low64 a.datum) := by
          unfold fltLt64 at h
          simpa [ha, hv, not_lt] using h
        exact (min_eq_right hle).symm
    · show fval64 (if fltLt64 (low64 v) (low64 a.datum)
          then low64 a.datum else low64 v)
        = max (fval64 (low64 a.datum)) (fval64 (low64 v))
      by_cases h : fltLt64 (low64 v) (low64 a.datum) = true
      · rw [if_pos h]
        have hlt : fval64 (low64 v) < fval64 (low64 a.datum) := by
          unfold fltLt64 at h
          simpa [ha, hv] using h
        exact (max_eq_left hlt.le).symm
      · rw [if_neg h]
        have hle : fval64 (low64 a.datum) ≤ fval64 (low64 v) := by
          unfold fltLt64 at h
          simpa [ha, hv, not_lt] using h
        exact (max_eq_right hle).symm

/-- Witness for C5: the accumulator holds `+0.0f` in its low 32 bits (and
`2.0` as a double pattern), the contribution is the `-1.0f` pattern (a tiny
positive subnormal as a double pattern); in particular the float min result
is `-1.0f`, whose raw pattern is numerically larger than the accumulator's,
so a raw-pattern comparison would have picked the wrong side. -/
theorem C5_merge_float_minmax_witness :
    mergeMinMaxFloat ⟨DatumClass.NORMAL, 0x4000000000000000⟩ 0xbf800000 ∧
    mergeMinMaxDouble ⟨DatumClass.NORMAL, 0x4000000000000000⟩ 0xbf800000 :=
  ⟨(C5_merge_float_minmax ⟨DatumClass.NORMAL, 0x4000000000000000⟩ 0xbf800000).1
      (by decide) (by decide),
   (C5_merge_float_minmax ⟨DatumClass.NORMAL, 0x4000000000000000⟩ 0xbf800000).2
      (by decide) (by decide)⟩
